import Mathlib

set_option maxHeartbeats 1000000

/-!
Verification development for the campus navigator data manager
(src/utils/data_manager.py and src/components/search.py).

The embedding models pandas tables as lists of rows, the networkx digraph as a
record of node and edge lists, and the four ID-keyed dictionaries as insertion
ordered association lists.  Numeric cells are modelled with integers; the
Python hash function, which is fixed within one interpreter session but not
across sessions, is a parameter of the import functions.
-/

/-- Cell value of a table: missing (pandas NaN / Python None), text, or a
number.  Numeric cells are modelled with integers. -/
inductive Value where
  | na : Value
  | str : String → Value
  | num : Int → Value
deriving DecidableEq

/-- Rendering used by the Python str() calls on cell values. -/
def Value.pyStr : Value → String
  | .na => "nan"
  | .str s => s
  | .num n => toString n

/-- Python truthiness of a cell value: the empty string and zero are falsy,
and a missing cell is truthy, because pandas renders it as the float NaN and
bool of NaN is True.  A None from reading an absent column never reaches a
truthiness test: every such call site passes an explicit string default. -/
def Value.truthy : Value → Bool
  | .na => true
  | .str s => decide (s ≠ "")
  | .num n => decide (n ≠ 0)

/-- Lookup in an association list of cells, with an explicit default. -/
def rowFindD (c : String) (d : Value) : List (String × Value) → Value
  | [] => d
  | p :: t => if p.1 = c then p.2 else rowFindD c d t

/-- One table row: an association list from column names to cell values. -/
structure Row where
  cells : List (String × Value)
deriving DecidableEq

/-- Reading a cell as row.get(c) does: a missing column reads as missing. -/
def Row.get (r : Row) (c : String) : Value := rowFindD c Value.na r.cells

/-- Reading a cell as row.get(c, the empty string) does. -/
def Row.getS (r : Row) (c : String) : Value := rowFindD c (Value.str "") r.cells

/-- A pandas DataFrame: a list of column names and a list of rows. -/
structure Table where
  cols : List String
  rows : List Row
deriving DecidableEq

/-- The values of one column, in row order. -/
def colVals (df : Table) (c : String) : List Value :=
  df.rows.map (fun r => r.get c)

/-- The required columns of the standard CSV format (self.standard_columns). -/
def standardColumns : List String :=
  ["department_id", "department_name",
   "building_id", "building_name",
   "floor_id", "floor_name",
   "room_id", "room_name", "room_type",
   "capacity", "x_coordinate", "y_coordinate"]

/-- The optional columns of the standard format (self.optional_columns). -/
def optionalColumns : List String :=
  ["department_description", "building_description",
   "floor_description", "room_description",
   "room_facilities", "accessibility"]

/-- The required columns of the simple format (self.simple_format_columns). -/
def simpleFormatColumns : List String :=
  ["type", "id", "name", "building_id", "description", "x", "y"]

/-- All columns of a list are present in the table. -/
def hasColsB (df : Table) (cs : List String) : Bool :=
  cs.all (fun c => decide (c ∈ df.cols))

/-- The columns of the list that the table is missing. -/
def missingCols (df : Table) (cs : List String) : List String :=
  cs.filter (fun c => !decide (c ∈ df.cols))

/-- A list of values has at least one duplicated entry, as the pandas
duplicated().any() test reports. -/
def hasDupsB (l : List Value) : Bool := !decide l.Nodup

/-- First occurrences of a list of values, given the values already seen. -/
def uniqOrderAux : List Value → List Value → List Value
  | _, [] => []
  | seen, v :: t =>
    if v ∈ seen then uniqOrderAux seen t else v :: uniqOrderAux (v :: seen) t

/-- First occurrences of a list of values, in order. -/
def uniqOrder (l : List Value) : List Value := uniqOrderAux [] l

/-- The values occurring at least twice, each reported once in first
occurrence order, as df[df[c].duplicated(keep=False)][c].unique() yields. -/
def dupVals (l : List Value) : List Value :=
  uniqOrder (l.filter (fun v => decide (2 ≤ l.count v)))

/-- Comma separated rendering of a list of values. -/
def joinVals (l : List Value) : String :=
  String.intercalate ", " (l.map Value.pyStr)

/-- The duplicate-key error message built by validate_csv. -/
def dupMsg (c : String) (l : List Value) : String :=
  "Duplicate " ++ c ++ " values found: " ++ joinVals (dupVals l)

/-- The four ID columns checked for duplicates in the standard format. -/
def stdIdCols : List String :=
  ["department_id", "building_id", "floor_id", "room_id"]

/-- The duplicate check loop run for tables holding all standard columns:
the first ID column with duplicated values produces the error. -/
def stdDupCheck (df : Table) : Bool × String :=
  match stdIdCols.find? (fun c => hasDupsB (colVals df c)) with
  | some c => (false, dupMsg c (colVals df c))
  | none => (true, "")

/-- DataManager.validate_csv: classify the table, check required columns,
then check the format specific duplicate rules. -/
def validateCsv (df : Table) : Bool × String :=
  let isSimple := hasColsB df simpleFormatColumns
  let isStandard := hasColsB df standardColumns
  if !isSimple && !isStandard then
    (false, "CSV format not recognized. Must include either standard columns or simplified columns.")
  else
    let req := if isSimple then simpleFormatColumns else standardColumns
    let missing := missingCols df req
    if missing ≠ [] then
      (false, "Missing required columns: " ++ String.intercalate ", " missing)
    else if isStandard then
      stdDupCheck df
    else if isSimple && hasDupsB (colVals df "id") then
      (false, dupMsg "id" (colVals df "id"))
    else
      (true, "")

/-- Directed graph with explicit node and edge lists, in insertion order,
modelling the networkx DiGraph (node attributes live in the mappings). -/
structure Graph where
  nodes : List String
  edges : List (String × String)
deriving DecidableEq

/-- networkx add_node: adding an existing node changes nothing. -/
def Graph.addNode (g : Graph) (n : String) : Graph :=
  if n ∈ g.nodes then g else { g with nodes := g.nodes ++ [n] }

/-- networkx add_edge: both endpoints are created if absent, and an existing
edge is not duplicated. -/
def Graph.addEdge (g : Graph) (a b : String) : Graph :=
  if (a, b) ∈ ((g.addNode a).addNode b).edges then (g.addNode a).addNode b
  else { nodes := ((g.addNode a).addNode b).nodes,
         edges := ((g.addNode a).addNode b).edges ++ [(a, b)] }

/-- Department record as stored in self.departments. -/
structure DeptRec where
  id : Value
  name : Value
  description : Value
deriving DecidableEq

/-- Building record as stored in self.buildings; coordinates are present only
for simple format imports. -/
structure BuildingRec where
  id : Value
  department_id : Value
  name : Value
  description : Value
  xy : Option (Int × Int)
deriving DecidableEq

/-- Floor record as stored in self.floors; coordinates are present only for
simple format imports. -/
structure FloorRec where
  id : Value
  building_id : Value
  name : Value
  description : Value
  xy : Option (Int × Int)
deriving DecidableEq

/-- Room record as stored in self.rooms. -/
structure RoomRec where
  id : Value
  floor_id : Value
  name : Value
  rtype : Value
  description : Value
  capacity : Value
  x : Value
  y : Value
  facilities : Value
  accessibility : Value
deriving DecidableEq

/-- The in-memory store of the DataManager: the raw dataframe, the graph and
the four insertion ordered ID-keyed mappings. -/
structure Store where
  df : Table
  graph : Graph
  departments : List (Value × DeptRec)
  buildings : List (Value × BuildingRec)
  floors : List (Value × FloorRec)
  rooms : List (Value × RoomRec)
deriving DecidableEq

/-- Python dict assignment on an insertion ordered association list: an
existing key is overwritten in place, a new key is appended. -/
def dinsert {α : Type} (m : List (Value × α)) (k : Value) (v : α) : List (Value × α) :=
  if k ∈ m.map Prod.fst then
    m.map (fun p => if p.1 = k then (k, v) else p)
  else
    m ++ [(k, v)]

/-- Python dict lookup on an insertion ordered association list. -/
def alookup {α : Type} (k : Value) : List (Value × α) → Option α
  | [] => Option.none
  | p :: t => if p.1 = k then some p.2 else alookup k t

/-- ASCII lowering as the Python str.lower() calls perform. -/
def pyLower (s : String) : String := ⟨s.data.map Char.toLower⟩

/-- Python substring containment: needle in hay. -/
def containsSub (hay needle : String) : Bool :=
  decide (needle.data <:+: hay.data)

/-- A simple format row is of the given kind when its type cell is a string
lowering to the kind name, as df[df[t].str.lower() == kind] selects. -/
def typeMatches (k : String) (r : Row) : Bool :=
  match r.get "type" with
  | .str s => decide (pyLower s = k)
  | _ => false

/-- The simple format rows of one entity kind, in table order. -/
def simpleRowsOfKind (df : Table) (k : String) : List Row :=
  df.rows.filter (typeMatches k)

/-- Leading whitespace removal on character lists. -/
def dropLeadingWs : List Char → List Char
  | [] => []
  | c :: t => if c.isWhitespace then dropLeadingWs t else c :: t

/-- Python str.strip(): whitespace removed from both ends. -/
def pyStrip (s : String) : String :=
  ⟨List.reverse (dropLeadingWs (List.reverse (dropLeadingWs s.data)))⟩

/-- Decimal digit accumulation; any non digit character fails the parse. -/
def digitsValAux : Nat → List Char → Option Nat
  | acc, [] => some acc
  | acc, c :: t =>
    if c.isDigit then digitsValAux (acc * 10 + (c.toNat - 48)) t else Option.none

/-- Integer parsing of a character list: an optional minus sign followed by
at least one character of digits only. -/
def parseIntData : List Char → Option Int
  | [] => Option.none
  | c :: t =>
    if c = Char.ofNat 45 then
      match t with
      | [] => Option.none
      | _ => (digitsValAux 0 t).map (fun n => -(n : Int))
    else (digitsValAux 0 (c :: t)).map (fun n => (n : Int))

/-- The cell is blank or absent: NaN/None, or a string that strips to
nothing.  This is the negation of the guard pd.notna(v) and str(v).strip()
being nonempty. -/
def blankOrAbsent : Value → Bool
  | .na => true
  | .str s => decide (pyStrip s = "")
  | .num _ => false

/-- Numeric parsing of a present cell, modelling the float() call with
integer parsing; a parse failure is the ValueError branch. -/
def parseNum : Value → Option Int
  | .na => Option.none
  | .str s => parseIntData (pyStrip s).data
  | .num n => some n

/-- Coordinate reading: a blank or absent cell, or a failing parse, falls
back to the synthesized default. -/
def coordOf (v : Value) (fb : Int) : Int :=
  if blankOrAbsent v then fb
  else
    match parseNum v with
    | some n => n
    | _ => fb

/-- The condition under which a coordinate cell is synthesized: absent,
blank, or non numeric. -/
def synthCond (v : Value) : Bool := blankOrAbsent v || (parseNum v).isNone

/-- Synthesized or parsed x coordinate of a simple format row: the fallback
hashes the id cell. -/
def synthX (pyH : Value → Int) (r : Row) : Int :=
  coordOf (r.get "x") (50 + (pyH (r.get "id")).emod 40)

/-- Synthesized or parsed y coordinate of a simple format row: the fallback
hashes the name cell. -/
def synthY (pyH : Value → Int) (r : Row) : Int :=
  coordOf (r.get "y") (50 + (pyH (r.get "name")).emod 40)

/-- Department record built from a simple format row. -/
def deptRecOf (r : Row) : DeptRec :=
  { id := r.get "id", name := r.get "name", description := r.getS "description" }

/-- Building record built from a simple format row: the building_id column
holds the parent department reference, kept verbatim when truthy. -/
def buildingRecOf (pyH : Value → Int) (r : Row) : BuildingRec :=
  { id := r.get "id",
    department_id := if (r.getS "building_id").truthy then r.getS "building_id" else Value.str "unknown",
    name := r.get "name",
    description := r.getS "description",
    xy := some (synthX pyH r, synthY pyH r) }

/-- Floor record built from a simple format row. -/
def floorRecOf (pyH : Value → Int) (r : Row) : FloorRec :=
  { id := r.get "id",
    building_id := if (r.getS "building_id").truthy then r.getS "building_id" else Value.str "unknown",
    name := r.get "name",
    description := r.getS "description",
    xy := some (synthX pyH r, synthY pyH r) }

/-- Room record built from a simple format row: type and capacity take the
documented defaults, the building_id column holds the floor reference. -/
def roomRecOf (pyH : Value → Int) (r : Row) : RoomRec :=
  { id := r.get "id",
    floor_id := if (r.getS "building_id").truthy then r.getS "building_id" else Value.str "unknown",
    name := r.get "name",
    rtype := Value.str "generic",
    description := r.getS "description",
    capacity := Value.num 40,
    x := Value.num (synthX pyH r),
    y := Value.num (synthY pyH r),
    facilities := Value.str "",
    accessibility := Value.str "" }

/-- Processing of one simple format department row. -/
def processDeptRow (st : Store) (r : Row) : Store :=
  let dn := "dept_" ++ (r.get "id").pyStr
  let g := (st.graph.addNode dn).addEdge "root" dn
  { st with graph := g, departments := dinsert st.departments (r.get "id") (deptRecOf r) }

/-- Processing of one simple format building row: the parent department edge
is taken when the reference is truthy and the department node exists,
otherwise the building hangs off the root. -/
def processBuildingRow (pyH : Value → Int) (st : Store) (r : Row) : Store :=
  let bn := "building_" ++ (r.get "id").pyStr
  let dref := r.getS "building_id"
  let g1 := st.graph.addNode bn
  let g2 :=
    if dref.truthy ∧ ("dept_" ++ dref.pyStr) ∈ g1.nodes then
      g1.addEdge ("dept_" ++ dref.pyStr) bn
    else
      g1.addEdge "root" bn
  { st with graph := g2, buildings := dinsert st.buildings (r.get "id") (buildingRecOf pyH r) }

/-- Processing of one simple format floor row, with the fallback chain named
building, first imported building, root. -/
def processFloorRow (pyH : Value → Int) (st : Store) (r : Row) : Store :=
  let fn := "floor_" ++ (r.get "id").pyStr
  let bref := r.getS "building_id"
  let g1 := st.graph.addNode fn
  let g2 :=
    if bref.truthy ∧ ("building_" ++ bref.pyStr) ∈ g1.nodes then
      g1.addEdge ("building_" ++ bref.pyStr) fn
    else
      match st.buildings with
      | [] => g1.addEdge "root" fn
      | b0 :: _ => g1.addEdge ("building_" ++ b0.1.pyStr) fn
  { st with graph := g2, floors := dinsert st.floors (r.get "id") (floorRecOf pyH r) }

/-- Processing of one simple format room row, with the fallback chain named
floor, first imported floor, first imported building, root. -/
def processRoomRow (pyH : Value → Int) (st : Store) (r : Row) : Store :=
  let rn := "room_" ++ (r.get "id").pyStr
  let fref := r.getS "building_id"
  let g1 := st.graph.addNode rn
  let g2 :=
    if fref.truthy ∧ ("floor_" ++ fref.pyStr) ∈ g1.nodes then
      g1.addEdge ("floor_" ++ fref.pyStr) rn
    else
      match st.floors with
      | f0 :: _ => g1.addEdge ("floor_" ++ f0.1.pyStr) rn
      | [] =>
        match st.buildings with
        | b0 :: _ => g1.addEdge ("building_" ++ b0.1.pyStr) rn
        | [] => g1.addEdge "root" rn
  { st with graph := g2, rooms := dinsert st.rooms (r.get "id") (roomRecOf pyH r) }

/-- DataManager._process_simple_format: departments, then buildings, then
floors, then rooms, each kind in table order. -/
def processSimpleFormat (pyH : Value → Int) (df : Table) (st : Store) : Store :=
  let st1 := (simpleRowsOfKind df "department").foldl processDeptRow st
  let st2 := (simpleRowsOfKind df "building").foldl (processBuildingRow pyH) st1
  let st3 := (simpleRowsOfKind df "floor").foldl (processFloorRow pyH) st2
  (simpleRowsOfKind df "room").foldl (processRoomRow pyH) st3

/-- df.drop_duplicates(c): keep the first row for each value of column c. -/
def firstPerKey (c : String) : List Value → List Row → List Row
  | _, [] => []
  | seen, r :: t =>
    if r.get c ∈ seen then firstPerKey c seen t
    else r :: firstPerKey c (r.get c :: seen) t

/-- The rows of the table deduplicated on one column. -/
def dropDuplicates (df : Table) (c : String) : List Row :=
  firstPerKey c [] df.rows

/-- Processing of one standard format department row. -/
def processStdDeptRow (st : Store) (r : Row) : Store :=
  let dn := "dept_" ++ (r.get "department_id").pyStr
  let g := (st.graph.addNode dn).addEdge "root" dn
  { st with
    graph := g
    departments := dinsert st.departments (r.get "department_id")
      { id := r.get "department_id", name := r.get "department_name",
        description := r.getS "department_description" } }

/-- Processing of one standard format building row: the department edge is
added unconditionally. -/
def processStdBuildingRow (st : Store) (r : Row) : Store :=
  let bn := "building_" ++ (r.get "building_id").pyStr
  let g := (st.graph.addNode bn).addEdge ("dept_" ++ (r.get "department_id").pyStr) bn
  { st with
    graph := g
    buildings := dinsert st.buildings (r.get "building_id")
      { id := r.get "building_id", department_id := r.get "department_id",
        name := r.get "building_name", description := r.getS "building_description",
        xy := Option.none } }

/-- Processing of one standard format floor row. -/
def processStdFloorRow (st : Store) (r : Row) : Store :=
  let fn := "floor_" ++ (r.get "floor_id").pyStr
  let g := (st.graph.addNode fn).addEdge ("building_" ++ (r.get "building_id").pyStr) fn
  { st with
    graph := g
    floors := dinsert st.floors (r.get "floor_id")
      { id := r.get "floor_id", building_id := r.get "building_id",
        name := r.get "floor_name", description := r.getS "floor_description",
        xy := Option.none } }

/-- Processing of one standard format room row: cells are passed through. -/
def processStdRoomRow (st : Store) (r : Row) : Store :=
  let rn := "room_" ++ (r.get "room_id").pyStr
  let g := (st.graph.addNode rn).addEdge ("floor_" ++ (r.get "floor_id").pyStr) rn
  { st with
    graph := g
    rooms := dinsert st.rooms (r.get "room_id")
      { id := r.get "room_id", floor_id := r.get "floor_id",
        name := r.get "room_name", rtype := r.get "room_type",
        description := r.getS "room_description",
        capacity := r.get "capacity",
        x := r.get "x_coordinate", y := r.get "y_coordinate",
        facilities := r.getS "room_facilities",
        accessibility := r.getS "accessibility" } }

/-- DataManager._process_standard_format: ancestors grouped by first
occurrence of each unique key, every row becomes one room. -/
def processStandardFormat (df : Table) (st : Store) : Store :=
  let st1 := (dropDuplicates df "department_id").foldl processStdDeptRow st
  let st2 := (dropDuplicates df "building_id").foldl processStdBuildingRow st1
  let st3 := (dropDuplicates df "floor_id").foldl processStdFloorRow st2
  df.rows.foldl processStdRoomRow st3

/-- The freshly reset store built at the top of _process_data: the imported
dataframe, a graph holding only the root node, and empty mappings. -/
def initStore (df : Table) : Store :=
  { df := df, graph := { nodes := ["root"], edges := [] },
    departments := [], buildings := [], floors := [], rooms := [] }

/-- DataManager._process_data: reset the store, then branch on the presence
of a type column alone. -/
def processData (pyH : Value → Int) (df : Table) : Store :=
  if "type" ∈ df.cols then processSimpleFormat pyH df (initStore df)
  else processStandardFormat df (initStore df)

/-- DataManager.import_from_csv / import_from_file on an already parsed
table: validation failure raises and leaves the store untouched, success
replaces the store wholesale. -/
def importFromCsv (pyH : Value → Int) (df : Table) (st : Store) : Store × Option String :=
  let v := validateCsv df
  if v.1 then (processData pyH df, Option.none)
  else (st, some ("Error importing CSV data: " ++ v.2))

/-- The one row per entity table built when a simple export is requested from
a store holding standard format data. -/
def simpleExportTable (st : Store) : Table :=
  { cols := ["type", "id", "name", "building_id", "description"],
    rows :=
      st.departments.map (fun p =>
        { cells := [("type", Value.str "department"), ("id", p.1),
                    ("name", p.2.name), ("building_id", Value.str ""),
                    ("description", p.2.description)] }) ++
      st.buildings.map (fun p =>
        { cells := [("type", Value.str "building"), ("id", p.1),
                    ("name", p.2.name), ("building_id", p.2.department_id),
                    ("description", p.2.description)] }) ++
      st.floors.map (fun p =>
        { cells := [("type", Value.str "floor"), ("id", p.1),
                    ("name", p.2.name), ("building_id", p.2.building_id),
                    ("description", p.2.description)] }) ++
      st.rooms.map (fun p =>
        { cells := [("type", Value.str "room"), ("id", p.1),
                    ("name", p.2.name), ("building_id", p.2.floor_id),
                    ("description", p.2.description)] }) }

/-- DataManager.export_to_csv, modelled as producing the table that is
serialized: an empty store yields a header only table, a simple request from
a standard store synthesizes the flat rows, and every other branch emits the
stored dataframe unchanged. -/
def exportToCsv (st : Store) (fm : String) : Table :=
  let isSimple := fm == "simple" || (fm == "auto" && decide ("type" ∈ st.df.cols))
  if st.df.rows = [] then
    if isSimple then { cols := simpleFormatColumns, rows := [] }
    else { cols := standardColumns ++ optionalColumns, rows := [] }
  else if isSimple then
    if "type" ∈ st.df.cols then st.df else simpleExportTable st
  else st.df

/-- Search results by category, as the dictionary returned by search. -/
structure SearchResults where
  departments : List DeptRec
  buildings : List BuildingRec
  floors : List FloorRec
  rooms : List RoomRec
deriving DecidableEq

/-- The matches_query helper: the stored value must be truthy and its
lowered str() rendering must contain the already lowered query. -/
def matchesQuery (ql : String) (v : Value) : Bool :=
  v.truthy && containsSub (pyLower v.pyStr) ql

/-- DataManager.search: an empty query short circuits to empty result lists,
otherwise each mapping is scanned in insertion order. -/
def searchStore (st : Store) (q : String) : SearchResults :=
  if q = "" then
    { departments := [], buildings := [], floors := [], rooms := [] }
  else
    let ql := pyLower q
    { departments := (st.departments.map Prod.snd).filter
        (fun d => matchesQuery ql d.name || matchesQuery ql d.description),
      buildings := (st.buildings.map Prod.snd).filter
        (fun b => matchesQuery ql b.name || matchesQuery ql b.description),
      floors := (st.floors.map Prod.snd).filter
        (fun f => matchesQuery ql f.name || matchesQuery ql f.description),
      rooms := (st.rooms.map Prod.snd).filter
        (fun r => matchesQuery ql r.name || matchesQuery ql r.rtype ||
                  matchesQuery ql r.description || matchesQuery ql r.facilities) }

/-- A hash instance for concrete witnesses: any fixed function stands for one
interpreter session. -/
def hZero : Value → Int := fun _ => 0

/-- A store with nothing imported. -/
def emptyStore : Store :=
  { df := { cols := [], rows := [] }, graph := { nodes := [], edges := [] },
    departments := [], buildings := [], floors := [], rooms := [] }

/-- Helper to build a row fixture. -/
def mkRow (l : List (String × Value)) : Row := { cells := l }

/-- Standard format fixture: two rooms sharing one department, building and
floor, unique room IDs, the normal shape of the standard format. -/
def tabC7 : Table :=
  { cols := standardColumns,
    rows := [
      mkRow [("department_id", Value.str "D1"), ("department_name", Value.str "CS"),
             ("building_id", Value.str "B1"), ("building_name", Value.str "Tech"),
             ("floor_id", Value.str "F1"), ("floor_name", Value.str "Floor 1"),
             ("room_id", Value.str "R1"), ("room_name", Value.str "Lab A"),
             ("room_type", Value.str "lab"), ("capacity", Value.num 30),
             ("x_coordinate", Value.num 10), ("y_coordinate", Value.num 20)],
      mkRow [("department_id", Value.str "D1"), ("department_name", Value.str "CS"),
             ("building_id", Value.str "B1"), ("building_name", Value.str "Tech"),
             ("floor_id", Value.str "F1"), ("floor_name", Value.str "Floor 1"),
             ("room_id", Value.str "R2"), ("room_name", Value.str "Lab B"),
             ("room_type", Value.str "lab"), ("capacity", Value.num 30),
             ("x_coordinate", Value.num 12), ("y_coordinate", Value.num 22)]] }

/-- Fixture holding every standard column and every simple column at once,
with a duplicated simple id but duplicate free standard ID columns. -/
def tabC1ce : Table :=
  { cols := ["type", "id", "name", "building_id", "description", "x", "y",
             "department_id", "department_name", "building_name",
             "floor_id", "floor_name", "room_id", "room_name", "room_type",
             "capacity", "x_coordinate", "y_coordinate"],
    rows := [
      mkRow [("type", Value.str "department"), ("id", Value.str "X"),
             ("name", Value.str "CS"), ("building_id", Value.str "B1"),
             ("department_id", Value.str "D1"), ("floor_id", Value.str "F1"),
             ("room_id", Value.str "R1")],
      mkRow [("type", Value.str "building"), ("id", Value.str "X"),
             ("name", Value.str "Tech"), ("building_id", Value.str "B2"),
             ("department_id", Value.str "D2"), ("floor_id", Value.str "F2"),
             ("room_id", Value.str "R2")]] }

/-- Simple only fixture with a duplicated id across two entity kinds. -/
def tabC1w : Table :=
  { cols := simpleFormatColumns,
    rows := [
      mkRow [("type", Value.str "department"), ("id", Value.str "X"),
             ("name", Value.str "CS"), ("building_id", Value.str ""),
             ("description", Value.str ""), ("x", Value.na), ("y", Value.na)],
      mkRow [("type", Value.str "room"), ("id", Value.str "X"),
             ("name", Value.str "Lab A"), ("building_id", Value.str ""),
             ("description", Value.str ""), ("x", Value.na), ("y", Value.na)]] }

/-- Standard only fixture with a duplicated room_id. -/
def tabC1w2 : Table :=
  { cols := standardColumns,
    rows := [
      mkRow [("department_id", Value.str "D1"), ("department_name", Value.str "CS"),
             ("building_id", Value.str "B1"), ("building_name", Value.str "Tech"),
             ("floor_id", Value.str "F1"), ("floor_name", Value.str "Floor 1"),
             ("room_id", Value.str "R1"), ("room_name", Value.str "Lab A"),
             ("room_type", Value.str "lab"), ("capacity", Value.num 30),
             ("x_coordinate", Value.num 10), ("y_coordinate", Value.num 20)],
      mkRow [("department_id", Value.str "D2"), ("department_name", Value.str "EE"),
             ("building_id", Value.str "B2"), ("building_name", Value.str "Main"),
             ("floor_id", Value.str "F2"), ("floor_name", Value.str "Floor 2"),
             ("room_id", Value.str "R1"), ("room_name", Value.str "Lab B"),
             ("room_type", Value.str "lab"), ("capacity", Value.num 30),
             ("x_coordinate", Value.num 12), ("y_coordinate", Value.num 22)]] }

/-- Simple format fixture used against the export contract. -/
def tabC3 : Table :=
  { cols := simpleFormatColumns,
    rows := [
      mkRow [("type", Value.str "department"), ("id", Value.str "D1"),
             ("name", Value.str "CS"), ("building_id", Value.str ""),
             ("description", Value.str ""), ("x", Value.na), ("y", Value.na)],
      mkRow [("type", Value.str "room"), ("id", Value.str "R1"),
             ("name", Value.str "Lab A"), ("building_id", Value.str ""),
             ("description", Value.str ""), ("x", Value.num 5), ("y", Value.num 6)]] }

/-- Simple format fixture with one building and one floor whose building
reference is dangling. -/
def tabC4 : Table :=
  { cols := simpleFormatColumns,
    rows := [
      mkRow [("type", Value.str "building"), ("id", Value.str "B1"),
             ("name", Value.str "Tech"), ("building_id", Value.str ""),
             ("description", Value.str ""), ("x", Value.num 1), ("y", Value.num 2)],
      mkRow [("type", Value.str "floor"), ("id", Value.str "F1"),
             ("name", Value.str "Floor 1"), ("building_id", Value.str "BX"),
             ("description", Value.str ""), ("x", Value.num 3), ("y", Value.num 4)]] }


/-- Equality of the four entity mappings of two stores: same entity sets with
equal attributes and same parent links. -/
def sameEntities (a b : Store) : Prop :=
  a.departments = b.departments ∧ a.buildings = b.buildings ∧
  a.floors = b.floors ∧ a.rooms = b.rooms

/-- The id cells of the building rows of a simple format table. -/
def buildingIds (df : Table) : List Value :=
  (simpleRowsOfKind df "building").map (fun r => r.get "id")

/-- Shape of a node name reachable before room processing: the root, a
department node, a building node of an imported building, or a floor node. -/
def nodeOK (bs : List Value) (n : String) : Prop :=
  n = "root" ∨ (∃ s, n = "dept_" ++ s) ∨
  (∃ b, b ∈ bs ∧ n = "building_" ++ Value.pyStr b) ∨ (∃ s, n = "floor_" ++ s)

/-- Invariant carried through the simple format folds: every node has one of
the legal shapes and every key of the buildings mapping is an imported
building id. -/
def stInv (bs : List Value) (s : Store) : Prop :=
  (∀ n ∈ s.graph.nodes, nodeOK bs n) ∧ (∀ k ∈ s.buildings.map Prod.fst, k ∈ bs)

/-- A value that holds text, as opposed to a missing cell, which Python
renders as the truthy float NaN, or a number. -/
def isStrField : Value → Bool
  | .str _ => true
  | _ => false

/-- Every searched field of the store holds a string. -/
def stringFieldStore (st : Store) : Bool :=
  st.departments.all (fun p => isStrField p.2.name && isStrField p.2.description) &&
  st.buildings.all (fun p => isStrField p.2.name && isStrField p.2.description) &&
  st.floors.all (fun p => isStrField p.2.name && isStrField p.2.description) &&
  st.rooms.all (fun p => isStrField p.2.name && isStrField p.2.rtype &&
    isStrField p.2.description && isStrField p.2.facilities)

/-- The text carried by a field value: a missing value carries no text. -/
def fieldText : Value → String
  | .na => ""
  | .str s => s
  | .num n => toString n

/-- Case insensitive substring containment, the reading of the search
contract in the specification. -/
def containsCI (hay q : String) : Bool := containsSub (pyLower hay) (pyLower q)

/-- Standard format witness fixture: one room with its ancestor chain. -/
def tabC2w : Table :=
  { cols := standardColumns,
    rows := [
      mkRow [("department_id", Value.str "D1"), ("department_name", Value.str "CS"),
             ("building_id", Value.str "B1"), ("building_name", Value.str "Tech"),
             ("floor_id", Value.str "F1"), ("floor_name", Value.str "Floor 1"),
             ("room_id", Value.str "R1"), ("room_name", Value.str "Lab A"),
             ("room_type", Value.str "lab"), ("capacity", Value.num 30),
             ("x_coordinate", Value.num 10), ("y_coordinate", Value.num 20)]] }

/-- Simple format witness fixture with blank and non numeric coordinates on
a building row and a room row. -/
def tabC5w : Table :=
  { cols := simpleFormatColumns,
    rows := [
      mkRow [("type", Value.str "building"), ("id", Value.str "B1"),
             ("name", Value.str "Tech"), ("building_id", Value.str ""),
             ("description", Value.str ""), ("x", Value.na), ("y", Value.str " ")],
      mkRow [("type", Value.str "room"), ("id", Value.str "R1"),
             ("name", Value.str "Lab A"), ("building_id", Value.str ""),
             ("description", Value.str ""), ("x", Value.str "abc"), ("y", Value.na)]] }

/-- Simple format witness fixture: one building, then a floor with a
dangling building reference. -/
def tabC6a : Table :=
  { cols := simpleFormatColumns,
    rows := [
      mkRow [("type", Value.str "building"), ("id", Value.str "B1"),
             ("name", Value.str "Tech"), ("building_id", Value.str ""),
             ("description", Value.str ""), ("x", Value.num 1), ("y", Value.num 2)],
      mkRow [("type", Value.str "floor"), ("id", Value.str "F1"),
             ("name", Value.str "Floor 1"), ("building_id", Value.str "BX"),
             ("description", Value.str ""), ("x", Value.num 3), ("y", Value.num 4)]] }

/-- Simple format witness fixture: a floor with an empty building reference
and no building row at all. -/
def tabC6b : Table :=
  { cols := simpleFormatColumns,
    rows := [
      mkRow [("type", Value.str "floor"), ("id", Value.str "F1"),
             ("name", Value.str "Floor 1"), ("building_id", Value.str ""),
             ("description", Value.str ""), ("x", Value.num 3), ("y", Value.num 4)]] }

/-- Simple format fixture with a resolvable floor to building reference. -/
def tabC4w : Table :=
  { cols := simpleFormatColumns,
    rows := [
      mkRow [("type", Value.str "building"), ("id", Value.str "B1"),
             ("name", Value.str "Tech"), ("building_id", Value.str ""),
             ("description", Value.str ""), ("x", Value.num 1), ("y", Value.num 2)],
      mkRow [("type", Value.str "floor"), ("id", Value.str "F1"),
             ("name", Value.str "Floor 1"), ("building_id", Value.str "B1"),
             ("description", Value.str ""), ("x", Value.num 3), ("y", Value.num 4)]] }

/-- Table holding every standard column plus a type column but not the full
simple column set. -/
def tabC9w : Table :=
  { cols := standardColumns ++ ["type"],
    rows := [
      mkRow [("department_id", Value.str "D1"), ("department_name", Value.str "CS"),
             ("building_id", Value.str "B1"), ("building_name", Value.str "Tech"),
             ("floor_id", Value.str "F1"), ("floor_name", Value.str "Floor 1"),
             ("room_id", Value.str "R1"), ("room_name", Value.str "Lab A"),
             ("room_type", Value.str "lab"), ("capacity", Value.num 30),
             ("x_coordinate", Value.num 10), ("y_coordinate", Value.num 20),
             ("type", Value.str "room")]] }

/-- Simple format fixture with a room whose description cell is empty, which
pandas stores as NaN. -/
def tabC8ce : Table :=
  { cols := simpleFormatColumns,
    rows := [
      mkRow [("type", Value.str "room"), ("id", Value.str "R1"),
             ("name", Value.str "Office"), ("building_id", Value.str ""),
             ("description", Value.na), ("x", Value.num 1), ("y", Value.num 2)]] }

/-- Simple format fixture for the search witness: the department and room
names of the specification example, with no shared substring. -/
def tabC8w : Table :=
  { cols := simpleFormatColumns,
    rows := [
      mkRow [("type", Value.str "department"), ("id", Value.str "D1"),
             ("name", Value.str "Computer Science"), ("building_id", Value.str ""),
             ("description", Value.str ""), ("x", Value.na), ("y", Value.na)],
      mkRow [("type", Value.str "room"), ("id", Value.str "R1"),
             ("name", Value.str "CS Lab 1"), ("building_id", Value.str ""),
             ("description", Value.str ""), ("x", Value.num 5), ("y", Value.num 6)]] }

/-- The graph parent a fallback floor attaches to: the first imported
building when one exists, else the root. -/
def fallbackSource (df : Table) : String :=
  match simpleRowsOfKind df "building" with
  | [] => "root"
  | b0 :: _ => "building_" ++ (b0.get "id").pyStr

/-- Claim C7: a standard table with one row per room, unique room_id values
and ancestor IDs repeated across rows sharing an ancestor is rejected by
validate_csv with a duplicate department_id error, so the import aborts and
the store stays untouched; the claim (and the shape produced by the exporter
itself) says such tables are the normal standard shape and must validate. -/
theorem C7_duplicate_ancestor_rejected :
  hasColsB tabC7 standardColumns = true ∧
  hasDupsB (colVals tabC7 "room_id") = false ∧
  validateCsv tabC7 = (false, "Duplicate department_id values found: D1") ∧
  importFromCsv hZero tabC7 emptyStore =
    (emptyStore, some "Error importing CSV data: Duplicate department_id values found: D1") := by
  decide

/-- Claim C1 counterexample: a table holding all simple columns and all
standard columns at once is classified as simple, its id column is
duplicated, yet the import succeeds and replaces the store, because the
duplicate check for the simple id column sits behind an elif that the
standard branch shadows. -/
theorem C1_both_formats_duplicate_id_passes :
  hasColsB tabC1ce simpleFormatColumns = true ∧
  hasDupsB (colVals tabC1ce "id") = true ∧
  (importFromCsv hZero tabC1ce emptyStore).2 = Option.none ∧
  ¬ (importFromCsv hZero tabC1ce emptyStore).1.departments = emptyStore.departments := by
  decide

/-- Claim C3 counterexample: after a simple format import, requesting a
standard export returns the stored simple format rows unchanged, not rows in
the standard schema (the result lacks every standard only column). -/
theorem C3_standard_request_returns_simple_rows :
  validateCsv tabC3 = (true, "") ∧
  exportToCsv (processData hZero tabC3) "standard" = tabC3 ∧
  ¬ "room_id" ∈ (exportToCsv (processData hZero tabC3) "standard").cols ∧
  ¬ "department_id" ∈ (exportToCsv (processData hZero tabC3) "standard").cols := by
  decide

/-- Claim C4 counterexample: a simple format floor row with a dangling
building reference is attached in the graph to the first imported building
while the floors mapping keeps the dangling reference, so the graph edge
source and the mapped building_id diverge. -/
theorem C4_dangling_floor_reference_diverges :
  ("building_B1", "floor_F1") ∈ (processData hZero tabC4).graph.edges ∧
  (alookup (Value.str "F1") (processData hZero tabC4).floors).map
    (fun f => f.building_id) = some (Value.str "BX") ∧
  ¬ ("building_BX", "floor_F1") ∈ (processData hZero tabC4).graph.edges := by
  decide

/-- Claim C10: searching with the empty string short circuits to the mapping
with four empty lists for every store, and the total function never fails. -/
theorem C10_empty_query_returns_empty_lists (st : Store) :
  searchStore st "" = { departments := [], buildings := [], floors := [], rooms := [] } := by
  rfl

theorem foldl_inv {α β : Type} (f : α → β → α) (P : α → Prop) :
    ∀ (l : List β), (∀ s b, b ∈ l → P s → P (f s b)) → ∀ s, P s → P (l.foldl f s)
  | [], _, _, hs => hs
  | b :: t, h, s, hs => by
    rw [List.foldl_cons]
    exact foldl_inv f P t (fun s2 b2 hb2 => h s2 b2 (List.mem_cons_of_mem _ hb2))
      (f s b) (h s b (List.mem_cons_self _ _) hs)

theorem foldl_proj {α β γ : Type} (f : α → β → α) (P : α → γ)
    (h : ∀ s b, P (f s b) = P s) : ∀ (l : List β) (s : α), P (l.foldl f s) = P s
  | [], _ => rfl
  | b :: t, s => by rw [List.foldl_cons, foldl_proj f P h t (f s b), h]

theorem foldl_map_eq {α β γ : Type} (f : α → β → α) (P : α → γ) (g : γ → β → γ)
    (h : ∀ s b, P (f s b) = g (P s) b) :
    ∀ (l : List β) (s : α), P (l.foldl f s) = l.foldl g (P s)
  | [], _ => rfl
  | b :: t, s => by
    rw [List.foldl_cons, List.foldl_cons, foldl_map_eq f P g h t (f s b), h]

theorem dinsert_ne_nil {α : Type} (m : List (Value × α)) (k : Value) (v : α) :
    dinsert m k v ≠ [] := by
  unfold dinsert
  split
  · next hmem =>
    cases m with
    | nil => simp at hmem
    | cons p t => simp
  · simp

theorem alookup_eq_none_of_not_mem {α : Type} (k : Value) :
    ∀ (m : List (Value × α)), ¬ k ∈ m.map Prod.fst → alookup k m = Option.none
  | [], _ => rfl
  | p :: t, h => by
    rw [alookup]
    rw [if_neg (fun he => h (List.mem_map.2 ⟨p, List.mem_cons_self _ _, he⟩))]
    exact alookup_eq_none_of_not_mem k t (fun ht => h (List.mem_cons_of_mem _ ht))

theorem alookup_append_right {α : Type} (k : Value) :
    ∀ (m l2 : List (Value × α)), alookup k m = Option.none →
      alookup k (m ++ l2) = alookup k l2
  | [], _, _ => rfl
  | p :: t, l2, h => by
    rw [alookup] at h
    rw [List.cons_append, alookup]
    split at h
    · cases h
    · next hne => rw [if_neg hne]; exact alookup_append_right k t l2 h

theorem alookup_map_overwrite {α : Type} (k : Value) (v : α) :
    ∀ (m : List (Value × α)), k ∈ m.map Prod.fst →
      alookup k (m.map (fun p => if p.1 = k then (k, v) else p)) = some v
  | [], h => absurd h (by simp)
  | p :: t, h => by
    rw [List.map_cons, alookup]
    by_cases hp : p.1 = k
    · rw [if_pos hp]
      simp
    · rw [if_neg hp]
      rw [if_neg hp]
      refine alookup_map_overwrite k v t ?_
      rw [List.map_cons, List.mem_cons] at h
      rcases h with h | h
      · exact absurd h.symm hp
      · exact h

theorem alookup_dinsert_self {α : Type} (m : List (Value × α)) (k : Value) (v : α) :
    alookup k (dinsert m k v) = some v := by
  unfold dinsert
  split
  · next hmem => exact alookup_map_overwrite k v m hmem
  · next hmem =>
    rw [alookup_append_right k m _ (alookup_eq_none_of_not_mem k m hmem)]
    simp [alookup]

theorem alookup_map_overwrite_ne {α : Type} (k k2 : Value) (v : α) (h : k2 ≠ k) :
    ∀ (m : List (Value × α)),
      alookup k2 (m.map (fun p => if p.1 = k then (k, v) else p)) = alookup k2 m
  | [] => rfl
  | p :: t => by
    rw [List.map_cons, alookup, alookup]
    by_cases hp : p.1 = k
    · rw [if_pos hp]
      have hne : ¬ ((k, v).1 = k2) := fun he => h he.symm
      rw [if_neg hne, if_neg (fun he : p.1 = k2 => h (hp.symm.trans he).symm)]
      exact alookup_map_overwrite_ne k k2 v h t
    · rw [if_neg hp]
      by_cases hp2 : p.1 = k2
      · rw [if_pos hp2, if_pos hp2]
      · rw [if_neg hp2, if_neg hp2]
        exact alookup_map_overwrite_ne k k2 v h t

theorem alookup_singleton_ne {α : Type} (k k2 : Value) (v : α) (h : k2 ≠ k) :
    alookup k2 [(k, v)] = Option.none := by
  rw [alookup, if_neg (fun he : k = k2 => h he.symm)]
  rfl

theorem alookup_append_left {α : Type} (k2 : Value) :
    ∀ (m l2 : List (Value × α)), alookup k2 l2 = Option.none →
      alookup k2 (m ++ l2) = alookup k2 m
  | [], l2, h => by rw [List.nil_append, h]; rfl
  | p :: t, l2, h => by
    rw [List.cons_append, alookup, alookup]
    split
    · rfl
    · exact alookup_append_left k2 t l2 h

theorem alookup_dinsert_ne {α : Type} (m : List (Value × α)) (k k2 : Value) (v : α)
    (h : k2 ≠ k) : alookup k2 (dinsert m k v) = alookup k2 m := by
  unfold dinsert
  split
  · exact alookup_map_overwrite_ne k k2 v h m
  · rw [alookup_append_left k2 m _ (alookup_singleton_ne k k2 v h)]

theorem alookup_foldl_dinsert_not_mem {α β : Type} (key : β → Value) (rec : β → α) :
    ∀ (l : List β) (m : List (Value × α)) (k : Value), ¬ k ∈ l.map key →
      alookup k (l.foldl (fun m2 b => dinsert m2 (key b) (rec b)) m) = alookup k m
  | [], _, _, _ => rfl
  | b :: t, m, k, h => by
    rw [List.map_cons, List.mem_cons] at h
    push_neg at h
    rw [List.foldl_cons,
      alookup_foldl_dinsert_not_mem key rec t _ k (by simpa using h.2),
      alookup_dinsert_ne _ _ _ _ h.1]

theorem alookup_foldl_dinsert {α β : Type} (key : β → Value) (rec : β → α) :
    ∀ (l : List β) (m : List (Value × α)) (b : β), b ∈ l → (l.map key).Nodup →
      alookup (key b) (l.foldl (fun m2 x => dinsert m2 (key x) (rec x)) m) = some (rec b)
  | [], _, _, hb, _ => absurd hb (List.not_mem_nil _)
  | c :: t, m, b, hb, hN => by
    rw [List.map_cons, List.nodup_cons] at hN
    rw [List.mem_cons] at hb
    rcases hb with hb | hb
    · subst hb
      rw [List.foldl_cons,
        alookup_foldl_dinsert_not_mem key rec t _ (key b) hN.1,
        alookup_dinsert_self]
    · rw [List.foldl_cons]
      exact alookup_foldl_dinsert key rec t _ b hb hN.2

theorem mem_nodes_addNode_self (g : Graph) (n : String) : n ∈ (g.addNode n).nodes := by
  unfold Graph.addNode
  split
  · assumption
  · simp

theorem mem_nodes_addNode (g : Graph) (n m : String) (h : m ∈ g.nodes) :
    m ∈ (g.addNode n).nodes := by
  unfold Graph.addNode
  split
  · exact h
  · simp [h]

theorem nodes_addNode_sub (g : Graph) (n m : String) (h : m ∈ (g.addNode n).nodes) :
    m ∈ g.nodes ∨ m = n := by
  unfold Graph.addNode at h
  split at h
  · exact Or.inl h
  · simpa using h

theorem edges_addNode (g : Graph) (n : String) : (g.addNode n).edges = g.edges := by
  unfold Graph.addNode
  split <;> rfl

theorem mem_nodes_addEdge (g : Graph) (a b m : String) (h : m ∈ g.nodes) :
    m ∈ (g.addEdge a b).nodes := by
  unfold Graph.addEdge
  split
  · exact mem_nodes_addNode _ _ _ (mem_nodes_addNode _ _ _ h)
  · exact mem_nodes_addNode _ _ _ (mem_nodes_addNode _ _ _ h)

theorem nodes_addEdge_sub (g : Graph) (a b m : String) (h : m ∈ (g.addEdge a b).nodes) :
    m ∈ g.nodes ∨ m = a ∨ m = b := by
  unfold Graph.addEdge at h
  split at h <;>
  · rcases nodes_addNode_sub _ _ _ h with h2 | h2
    · rcases nodes_addNode_sub _ _ _ h2 with h3 | h3
      · exact Or.inl h3
      · exact Or.inr (Or.inl h3)
    · exact Or.inr (Or.inr h2)

theorem mem_edges_addEdge_self (g : Graph) (a b : String) :
    (a, b) ∈ (g.addEdge a b).edges := by
  unfold Graph.addEdge
  split
  · assumption
  · simp

theorem mem_edges_addEdge (g : Graph) (a b : String) (e : String × String)
    (h : e ∈ g.edges) : e ∈ (g.addEdge a b).edges := by
  unfold Graph.addEdge
  split
  · next hmem => rw [edges_addNode, edges_addNode]; exact h
  · rw [List.mem_append]
    rw [edges_addNode, edges_addNode]
    exact Or.inl h

theorem processDeptRow_df (s : Store) (r : Row) : (processDeptRow s r).df = s.df := rfl

theorem processBuildingRow_df (pyH : Value → Int) (s : Store) (r : Row) :
    (processBuildingRow pyH s r).df = s.df := rfl

theorem processFloorRow_df (pyH : Value → Int) (s : Store) (r : Row) :
    (processFloorRow pyH s r).df = s.df := rfl

theorem processRoomRow_df (pyH : Value → Int) (s : Store) (r : Row) :
    (processRoomRow pyH s r).df = s.df := rfl

theorem processStdDeptRow_df (s : Store) (r : Row) : (processStdDeptRow s r).df = s.df := rfl

theorem processStdBuildingRow_df (s : Store) (r : Row) :
    (processStdBuildingRow s r).df = s.df := rfl

theorem processStdFloorRow_df (s : Store) (r : Row) :
    (processStdFloorRow s r).df = s.df := rfl

theorem processStdRoomRow_df (s : Store) (r : Row) : (processStdRoomRow s r).df = s.df := rfl

theorem processSimpleFormat_df (pyH : Value → Int) (df : Table) (st : Store) :
    (processSimpleFormat pyH df st).df = st.df := by
  unfold processSimpleFormat
  rw [foldl_proj _ _ (processRoomRow_df pyH), foldl_proj _ _ (processFloorRow_df pyH),
    foldl_proj _ _ (processBuildingRow_df pyH), foldl_proj _ _ processDeptRow_df]

theorem processStandardFormat_df (df : Table) (st : Store) :
    (processStandardFormat df st).df = st.df := by
  unfold processStandardFormat
  rw [foldl_proj _ _ processStdRoomRow_df, foldl_proj _ _ processStdFloorRow_df,
    foldl_proj _ _ processStdBuildingRow_df, foldl_proj _ _ processStdDeptRow_df]

theorem processData_df (pyH : Value → Int) (df : Table) :
    (processData pyH df).df = df := by
  unfold processData
  split
  · rw [processSimpleFormat_df]
    rfl
  · rw [processStandardFormat_df]
    rfl

theorem processDeptRow_buildings (s : Store) (r : Row) :
    (processDeptRow s r).buildings = s.buildings := rfl

theorem processDeptRow_floors (s : Store) (r : Row) :
    (processDeptRow s r).floors = s.floors := rfl

theorem processDeptRow_rooms (s : Store) (r : Row) :
    (processDeptRow s r).rooms = s.rooms := rfl

theorem processBuildingRow_departments (pyH : Value → Int) (s : Store) (r : Row) :
    (processBuildingRow pyH s r).departments = s.departments := rfl

theorem processBuildingRow_floors (pyH : Value → Int) (s : Store) (r : Row) :
    (processBuildingRow pyH s r).floors = s.floors := rfl

theorem processBuildingRow_rooms (pyH : Value → Int) (s : Store) (r : Row) :
    (processBuildingRow pyH s r).rooms = s.rooms := rfl

theorem processBuildingRow_buildings (pyH : Value → Int) (s : Store) (r : Row) :
    (processBuildingRow pyH s r).buildings =
      dinsert s.buildings (r.get "id") (buildingRecOf pyH r) := rfl

theorem processFloorRow_departments (pyH : Value → Int) (s : Store) (r : Row) :
    (processFloorRow pyH s r).departments = s.departments := rfl

theorem processFloorRow_buildings (pyH : Value → Int) (s : Store) (r : Row) :
    (processFloorRow pyH s r).buildings = s.buildings := rfl

theorem processFloorRow_rooms (pyH : Value → Int) (s : Store) (r : Row) :
    (processFloorRow pyH s r).rooms = s.rooms := rfl

theorem processFloorRow_floors (pyH : Value → Int) (s : Store) (r : Row) :
    (processFloorRow pyH s r).floors =
      dinsert s.floors (r.get "id") (floorRecOf pyH r) := rfl

theorem processRoomRow_departments (pyH : Value → Int) (s : Store) (r : Row) :
    (processRoomRow pyH s r).departments = s.departments := rfl

theorem processRoomRow_buildings (pyH : Value → Int) (s : Store) (r : Row) :
    (processRoomRow pyH s r).buildings = s.buildings := rfl

theorem processRoomRow_floors (pyH : Value → Int) (s : Store) (r : Row) :
    (processRoomRow pyH s r).floors = s.floors := rfl

theorem processRoomRow_rooms (pyH : Value → Int) (s : Store) (r : Row) :
    (processRoomRow pyH s r).rooms =
      dinsert s.rooms (r.get "id") (roomRecOf pyH r) := rfl


theorem mem_edges_addEdge_addNode (g : Graph) (n a b : String) (e : String × String)
    (h : e ∈ g.edges) : e ∈ ((g.addNode n).addEdge a b).edges :=
  mem_edges_addEdge _ _ _ _ (by rw [edges_addNode]; exact h)

theorem mem_nodes_addEdge_addNode (g : Graph) (n a b m : String)
    (h : m ∈ g.nodes) : m ∈ ((g.addNode n).addEdge a b).nodes :=
  mem_nodes_addEdge _ _ _ _ (mem_nodes_addNode _ _ _ h)

theorem processSimpleFormat_buildings (pyH : Value → Int) (df : Table) (st : Store) :
    (processSimpleFormat pyH df st).buildings =
      (simpleRowsOfKind df "building").foldl
        (fun m r => dinsert m (r.get "id") (buildingRecOf pyH r)) st.buildings := by
  unfold processSimpleFormat
  rw [foldl_proj (processRoomRow pyH) Store.buildings (processRoomRow_buildings pyH),
    foldl_proj (processFloorRow pyH) Store.buildings (processFloorRow_buildings pyH),
    foldl_map_eq (processBuildingRow pyH) Store.buildings
      (fun m r => dinsert m (r.get "id") (buildingRecOf pyH r))
      (processBuildingRow_buildings pyH),
    foldl_proj processDeptRow Store.buildings processDeptRow_buildings]

theorem processSimpleFormat_floors (pyH : Value → Int) (df : Table) (st : Store) :
    (processSimpleFormat pyH df st).floors =
      (simpleRowsOfKind df "floor").foldl
        (fun m r => dinsert m (r.get "id") (floorRecOf pyH r)) st.floors := by
  unfold processSimpleFormat
  rw [foldl_proj (processRoomRow pyH) Store.floors (processRoomRow_floors pyH),
    foldl_map_eq (processFloorRow pyH) Store.floors
      (fun m r => dinsert m (r.get "id") (floorRecOf pyH r))
      (processFloorRow_floors pyH),
    foldl_proj (processBuildingRow pyH) Store.floors (processBuildingRow_floors pyH),
    foldl_proj processDeptRow Store.floors processDeptRow_floors]

theorem processSimpleFormat_rooms (pyH : Value → Int) (df : Table) (st : Store) :
    (processSimpleFormat pyH df st).rooms =
      (simpleRowsOfKind df "room").foldl
        (fun m r => dinsert m (r.get "id") (roomRecOf pyH r)) st.rooms := by
  unfold processSimpleFormat
  rw [foldl_map_eq (processRoomRow pyH) Store.rooms
      (fun m r => dinsert m (r.get "id") (roomRecOf pyH r))
      (processRoomRow_rooms pyH),
    foldl_proj (processFloorRow pyH) Store.rooms (processFloorRow_rooms pyH),
    foldl_proj (processBuildingRow pyH) Store.rooms (processBuildingRow_rooms pyH),
    foldl_proj processDeptRow Store.rooms processDeptRow_rooms]

theorem processDeptRow_edges (s : Store) (r : Row) (e : String × String)
    (h : e ∈ s.graph.edges) : e ∈ (processDeptRow s r).graph.edges := by
  unfold processDeptRow
  dsimp only
  exact mem_edges_addEdge_addNode _ _ _ _ _ h

theorem processDeptRow_nodes (s : Store) (r : Row) (n : String)
    (h : n ∈ s.graph.nodes) : n ∈ (processDeptRow s r).graph.nodes := by
  unfold processDeptRow
  dsimp only
  exact mem_nodes_addEdge_addNode _ _ _ _ _ h

theorem processBuildingRow_edges (pyH : Value → Int) (s : Store) (r : Row)
    (e : String × String) (h : e ∈ s.graph.edges) :
    e ∈ (processBuildingRow pyH s r).graph.edges := by
  unfold processBuildingRow
  dsimp only
  split <;> exact mem_edges_addEdge_addNode _ _ _ _ _ h

theorem processBuildingRow_nodes (pyH : Value → Int) (s : Store) (r : Row)
    (n : String) (h : n ∈ s.graph.nodes) :
    n ∈ (processBuildingRow pyH s r).graph.nodes := by
  unfold processBuildingRow
  dsimp only
  split <;> exact mem_nodes_addEdge_addNode _ _ _ _ _ h

theorem processFloorRow_edges (pyH : Value → Int) (s : Store) (r : Row)
    (e : String × String) (h : e ∈ s.graph.edges) :
    e ∈ (processFloorRow pyH s r).graph.edges := by
  unfold processFloorRow
  dsimp only
  split
  · exact mem_edges_addEdge_addNode _ _ _ _ _ h
  · split <;> exact mem_edges_addEdge_addNode _ _ _ _ _ h

theorem processFloorRow_nodes (pyH : Value → Int) (s : Store) (r : Row)
    (n : String) (h : n ∈ s.graph.nodes) :
    n ∈ (processFloorRow pyH s r).graph.nodes := by
  unfold processFloorRow
  dsimp only
  split
  · exact mem_nodes_addEdge_addNode _ _ _ _ _ h
  · split <;> exact mem_nodes_addEdge_addNode _ _ _ _ _ h

theorem processRoomRow_edges (pyH : Value → Int) (s : Store) (r : Row)
    (e : String × String) (h : e ∈ s.graph.edges) :
    e ∈ (processRoomRow pyH s r).graph.edges := by
  unfold processRoomRow
  dsimp only
  split
  · exact mem_edges_addEdge_addNode _ _ _ _ _ h
  · split
    · exact mem_edges_addEdge_addNode _ _ _ _ _ h
    · split <;> exact mem_edges_addEdge_addNode _ _ _ _ _ h

theorem missingCols_eq_nil (df : Table) (cs : List String) (h : hasColsB df cs = true) :
    missingCols df cs = [] := by
  unfold hasColsB at h
  unfold missingCols
  rw [List.all_eq_true] at h
  rw [List.filter_eq_nil_iff]
  intro c hc
  simp [h c hc]

theorem validateCsv_of_standard (df : Table) (hstd : hasColsB df standardColumns = true) :
    validateCsv df = stdDupCheck df := by
  by_cases hs : hasColsB df simpleFormatColumns = true
  · simp only [validateCsv, hs, hstd, Bool.not_true, Bool.and_self, if_true]
    simp
    intro hmc
    exact absurd (missingCols_eq_nil df _ hs) hmc
  · rw [Bool.not_eq_true] at hs
    simp only [validateCsv, hs, hstd, Bool.not_true, Bool.not_false, Bool.false_and]
    simp
    intro hmc
    exact absurd (missingCols_eq_nil df _ hstd) hmc

theorem validateCsv_std_dup (df : Table) (hstd : hasColsB df standardColumns = true)
    (hdup : hasDupsB (colVals df "room_id") = true) :
    ∃ c, hasDupsB (colVals df c) = true ∧
      validateCsv df = (false, dupMsg c (colVals df c)) := by
  have hfind : stdIdCols.find? (fun c => hasDupsB (colVals df c)) ≠ Option.none := by
    intro hn
    rw [List.find?_eq_none] at hn
    have := hn "room_id" (by decide)
    rw [hdup] at this
    exact this rfl
  obtain ⟨c, hc⟩ := Option.ne_none_iff_exists'.1 hfind
  have hp : hasDupsB (colVals df c) = true := by
    have := List.find?_some hc
    simpa using this
  refine ⟨c, hp, ?_⟩
  rw [validateCsv_of_standard df hstd]
  unfold stdDupCheck
  rw [hc]

theorem validateCsv_simple_dup (df : Table) (hsim : hasColsB df simpleFormatColumns = true)
    (hnstd : hasColsB df standardColumns = false)
    (hdup : hasDupsB (colVals df "id") = true) :
    validateCsv df = (false, dupMsg "id" (colVals df "id")) := by
  simp only [validateCsv, hsim, hnstd, Bool.not_true, Bool.not_false, Bool.false_and,
    if_true, missingCols_eq_nil df _ hsim]
  simp [hdup]

/-- Claim C1, amended: a table holding all standard columns whose room_id
column is duplicated, and a table holding the simple columns but not the
full standard column set whose id column is duplicated, both abort
importing with an error naming the duplicated values of a checked ID column
and leave the store exactly as it was; a table holding both full column sets is
vetted only by the standard checks, so a duplicated simple id alone does not
abort. -/
theorem C1_duplicate_key_aborts_import (pyH : Value → Int) (df : Table) (st : Store)
    (hcase : (hasColsB df standardColumns = true ∧ hasDupsB (colVals df "room_id") = true)
      ∨ (hasColsB df simpleFormatColumns = true ∧ hasColsB df standardColumns = false ∧
         hasDupsB (colVals df "id") = true)) :
    (importFromCsv pyH df st).1 = st ∧
    ∃ c, hasDupsB (colVals df c) = true ∧
      (importFromCsv pyH df st).2 =
        some ("Error importing CSV data: " ++ dupMsg c (colVals df c)) := by
  rcases hcase with ⟨hstd, hdup⟩ | ⟨hsim, hnstd, hdup⟩
  · obtain ⟨c, hp, hval⟩ := validateCsv_std_dup df hstd hdup
    refine ⟨?_, c, hp, ?_⟩
    · simp [importFromCsv, hval]
    · simp [importFromCsv, hval]
  · have hval := validateCsv_simple_dup df hsim hnstd hdup
    refine ⟨?_, "id", hdup, ?_⟩
    · simp [importFromCsv, hval]
    · simp [importFromCsv, hval]

theorem C1_duplicate_key_aborts_import_witness :
    (hasColsB tabC1w simpleFormatColumns = true ∧ hasColsB tabC1w standardColumns = false ∧
     hasDupsB (colVals tabC1w "id") = true) ∧
    ((importFromCsv hZero tabC1w emptyStore).1 = emptyStore ∧
     ∃ c, hasDupsB (colVals tabC1w c) = true ∧
       (importFromCsv hZero tabC1w emptyStore).2 =
         some ("Error importing CSV data: " ++ dupMsg c (colVals tabC1w c))) :=
  ⟨by decide, C1_duplicate_key_aborts_import hZero tabC1w emptyStore (Or.inr (by decide))⟩

/-- Claim C9: a table with every standard column plus a type column but not
the full simple column set is vetted by the standard duplicate checks during
validation, yet processing takes the simple format path, because the
processing branch looks only at the presence of a type column. -/
theorem C9_type_column_controls_processing (pyH : Value → Int) (df : Table)
    (hstd : hasColsB df standardColumns = true)
    (ht : "type" ∈ df.cols)
    (hns : hasColsB df simpleFormatColumns = false) :
    validateCsv df = stdDupCheck df ∧
    processData pyH df = processSimpleFormat pyH df (initStore df) := by
  constructor
  · exact validateCsv_of_standard df hstd
  · unfold processData
    rw [if_pos ht]

theorem C9_type_column_controls_processing_witness :
    (hasColsB tabC9w standardColumns = true ∧ "type" ∈ tabC9w.cols ∧
     hasColsB tabC9w simpleFormatColumns = false) ∧
    (validateCsv tabC9w = stdDupCheck tabC9w ∧
     processData hZero tabC9w = processSimpleFormat hZero tabC9w (initStore tabC9w)) :=
  ⟨by decide, C9_type_column_controls_processing hZero tabC9w (by decide) (by decide) (by decide)⟩

theorem processStandardFormat_nil (df : Table) (st : Store) (h : df.rows = []) :
    processStandardFormat df st = st := by
  unfold processStandardFormat dropDuplicates
  rw [h]
  rfl

/-- Claim C2: for a store built by a successful standard format import,
exporting in standard format and re-importing the exported table succeeds and
yields a store with the same entity sets and the same parent links. -/
theorem C2_standard_roundtrip (pyH : Value → Int) (df : Table) (st1 : Store)
    (hv : (validateCsv df).1 = true) (ht : ¬ "type" ∈ df.cols) :
    (importFromCsv pyH (exportToCsv (processData pyH df) "standard") st1).2 = Option.none ∧
    sameEntities (importFromCsv pyH (exportToCsv (processData pyH df) "standard") st1).1
      (processData pyH df) := by
  have hdf : (processData pyH df).df = df := processData_df pyH df
  by_cases hr : df.rows = []
  · have hexp : exportToCsv (processData pyH df) "standard" =
        { cols := standardColumns ++ optionalColumns, rows := [] } := by
      unfold exportToCsv
      rw [hdf, hr]
      simp
    rw [hexp]
    have hval : validateCsv { cols := standardColumns ++ optionalColumns, rows := [] } =
        (true, "") := by decide
    have h1 : processData pyH { cols := standardColumns ++ optionalColumns, rows := [] } =
        initStore { cols := standardColumns ++ optionalColumns, rows := [] } := by
      unfold processData
      rw [if_neg (by decide)]
      exact processStandardFormat_nil _ _ rfl
    have h2 : processData pyH df = initStore df := by
      unfold processData
      rw [if_neg ht]
      exact processStandardFormat_nil _ _ hr
    constructor
    · simp [importFromCsv, hval]
    · simp only [importFromCsv, hval]
      rw [h1, h2]
      exact ⟨rfl, rfl, rfl, rfl⟩
  · have hexp : exportToCsv (processData pyH df) "standard" = df := by
      unfold exportToCsv
      rw [hdf]
      rw [if_neg hr]
      simp
    rw [hexp]
    constructor
    · simp [importFromCsv, hv]
    · simp only [importFromCsv, hv]
      simp
      exact ⟨rfl, rfl, rfl, rfl⟩

theorem C2_standard_roundtrip_witness :
    ((validateCsv tabC2w).1 = true ∧ ¬ "type" ∈ tabC2w.cols) ∧
    ((importFromCsv hZero (exportToCsv (processData hZero tabC2w) "standard") emptyStore).2 =
       Option.none ∧
     sameEntities
       (importFromCsv hZero (exportToCsv (processData hZero tabC2w) "standard") emptyStore).1
       (processData hZero tabC2w)) :=
  ⟨by decide, C2_standard_roundtrip hZero tabC2w emptyStore (by decide) (by decide)⟩

/-- Claim C3, amended: a standard export request from a store imported in
simple format returns the stored simple format rows unchanged (the simple to
standard conversion is not implemented), while a simple export request from
a standard store does produce one row per entity with the flat columns. -/
theorem C3_export_requested_format_amended (st st2 : Store)
    (h1 : "type" ∈ st.df.cols) (h2 : st.df.rows ≠ [])
    (h3 : ¬ "type" ∈ st2.df.cols) (h4 : st2.df.rows ≠ []) :
    exportToCsv st "standard" = st.df ∧
    (exportToCsv st2 "simple").cols = ["type", "id", "name", "building_id", "description"] := by
  constructor
  · unfold exportToCsv
    rw [if_neg h2]
    simp
  · unfold exportToCsv
    rw [if_neg h4]
    simp [h3, simpleExportTable]

theorem C3_export_requested_format_amended_witness :
    ("type" ∈ (processData hZero tabC3).df.cols ∧ (processData hZero tabC3).df.rows ≠ [] ∧
     ¬ "type" ∈ (processData hZero tabC2w).df.cols ∧ (processData hZero tabC2w).df.rows ≠ []) ∧
    (exportToCsv (processData hZero tabC3) "standard" = (processData hZero tabC3).df ∧
     (exportToCsv (processData hZero tabC2w) "simple").cols =
       ["type", "id", "name", "building_id", "description"]) :=
  ⟨by decide,
   C3_export_requested_format_amended (processData hZero tabC3) (processData hZero tabC2w)
     (by decide) (by decide) (by decide) (by decide)⟩

theorem coordOf_fallback (v : Value) (fb : Int) (h : synthCond v = true) :
    coordOf v fb = fb := by
  unfold synthCond at h
  unfold coordOf
  cases hb : blankOrAbsent v with
  | true => simp
  | false =>
    rw [hb] at h
    simp only [Bool.false_or, Option.isNone_iff_eq_none] at h
    simp [h]

theorem processSimpleFormat_eq (pyH : Value → Int) (df : Table) (st : Store) :
    processSimpleFormat pyH df st =
      (simpleRowsOfKind df "room").foldl (processRoomRow pyH)
        ((simpleRowsOfKind df "floor").foldl (processFloorRow pyH)
          ((simpleRowsOfKind df "building").foldl (processBuildingRow pyH)
            ((simpleRowsOfKind df "department").foldl processDeptRow st))) := rfl

theorem processData_simple (pyH : Value → Int) (df : Table) (ht : "type" ∈ df.cols) :
    processData pyH df = processSimpleFormat pyH df (initStore df) := by
  unfold processData
  rw [if_pos ht]

/-- Claim C5: for every simple format building row and room row whose x
(resp. y) cell is absent, blank, or non numeric, the imported record carries
x equal to 50 plus the session hash of the id cell modulo 40 and y equal to
50 plus the session hash of the name cell modulo 40; the formula is a
function of the row and the session hash alone, so importing the same row
twice within one session synthesizes identical coordinates both times. -/
theorem C5_coordinate_synthesis (pyH : Value → Int) (df : Table) (rb rr : Row)
    (ht : "type" ∈ df.cols)
    (hbmem : rb ∈ simpleRowsOfKind df "building")
    (hbN : ((simpleRowsOfKind df "building").map (fun x => x.get "id")).Nodup)
    (hbx : synthCond (rb.get "x") = true) (hby : synthCond (rb.get "y") = true)
    (hrmem : rr ∈ simpleRowsOfKind df "room")
    (hrN : ((simpleRowsOfKind df "room").map (fun x => x.get "id")).Nodup)
    (hrx : synthCond (rr.get "x") = true) (hry : synthCond (rr.get "y") = true) :
    (∃ brec, alookup (rb.get "id") (processData pyH df).buildings = some brec ∧
      brec.xy = some (50 + (pyH (rb.get "id")).emod 40, 50 + (pyH (rb.get "name")).emod 40)) ∧
    (∃ rrec, alookup (rr.get "id") (processData pyH df).rooms = some rrec ∧
      rrec.x = Value.num (50 + (pyH (rr.get "id")).emod 40) ∧
      rrec.y = Value.num (50 + (pyH (rr.get "name")).emod 40)) := by
  rw [processData_simple pyH df ht]
  constructor
  · refine ⟨buildingRecOf pyH rb, ?_, ?_⟩
    · rw [processSimpleFormat_buildings]
      exact alookup_foldl_dinsert (fun x => x.get "id") (buildingRecOf pyH) _ _ rb hbmem hbN
    · unfold buildingRecOf
      simp [synthX, synthY, coordOf_fallback _ _ hbx, coordOf_fallback _ _ hby]
  · refine ⟨roomRecOf pyH rr, ?_, ?_, ?_⟩
    · rw [processSimpleFormat_rooms]
      exact alookup_foldl_dinsert (fun x => x.get "id") (roomRecOf pyH) _ _ rr hrmem hrN
    · unfold roomRecOf
      simp [synthX, coordOf_fallback _ _ hrx]
    · unfold roomRecOf
      simp [synthY, coordOf_fallback _ _ hry]

theorem C5_coordinate_synthesis_witness :
    ("type" ∈ tabC5w.cols ∧
     (tabC5w.rows.get ⟨0, by decide⟩) ∈ simpleRowsOfKind tabC5w "building" ∧
     ((simpleRowsOfKind tabC5w "building").map (fun x => x.get "id")).Nodup ∧
     synthCond ((tabC5w.rows.get ⟨0, by decide⟩).get "x") = true ∧
     synthCond ((tabC5w.rows.get ⟨0, by decide⟩).get "y") = true ∧
     (tabC5w.rows.get ⟨1, by decide⟩) ∈ simpleRowsOfKind tabC5w "room" ∧
     ((simpleRowsOfKind tabC5w "room").map (fun x => x.get "id")).Nodup ∧
     synthCond ((tabC5w.rows.get ⟨1, by decide⟩).get "x") = true ∧
     synthCond ((tabC5w.rows.get ⟨1, by decide⟩).get "y") = true) ∧
    ((∃ brec, alookup ((tabC5w.rows.get ⟨0, by decide⟩).get "id")
        (processData hZero tabC5w).buildings = some brec ∧
      brec.xy = some (50 + (hZero ((tabC5w.rows.get ⟨0, by decide⟩).get "id")).emod 40,
                      50 + (hZero ((tabC5w.rows.get ⟨0, by decide⟩).get "name")).emod 40)) ∧
     (∃ rrec, alookup ((tabC5w.rows.get ⟨1, by decide⟩).get "id")
        (processData hZero tabC5w).rooms = some rrec ∧
      rrec.x = Value.num (50 + (hZero ((tabC5w.rows.get ⟨1, by decide⟩).get "id")).emod 40) ∧
      rrec.y = Value.num (50 + (hZero ((tabC5w.rows.get ⟨1, by decide⟩).get "name")).emod 40))) :=
  ⟨by decide,
   C5_coordinate_synthesis hZero tabC5w (tabC5w.rows.get ⟨0, by decide⟩)
     (tabC5w.rows.get ⟨1, by decide⟩) (by decide) (by decide) (by decide) (by decide)
     (by decide) (by decide) (by decide) (by decide) (by decide)⟩

theorem processBuildingRow_own_node (pyH : Value → Int) (s : Store) (r : Row) :
    ("building_" ++ (r.get "id").pyStr) ∈ (processBuildingRow pyH s r).graph.nodes := by
  unfold processBuildingRow
  dsimp only
  split <;> exact mem_nodes_addEdge _ _ _ _ (mem_nodes_addNode_self _ _)

theorem building_node_after_fold (pyH : Value → Int) :
    ∀ (l : List Row) (s : Store) (p : Row), p ∈ l →
      ("building_" ++ (p.get "id").pyStr) ∈
        (l.foldl (processBuildingRow pyH) s).graph.nodes
  | c :: t, s, p, hp => by
    rw [List.foldl_cons]
    rcases List.mem_cons.1 hp with hp | hp
    · subst hp
      exact foldl_inv (processBuildingRow pyH)
        (fun st => ("building_" ++ (p.get "id").pyStr) ∈ st.graph.nodes) t
        (fun s2 b _ h2 => processBuildingRow_nodes pyH s2 b _ h2) _
        (processBuildingRow_own_node pyH s p)
    · exact building_node_after_fold pyH t _ p hp

/-- Claim C4, amended: after a simple format import, every floor row whose
building reference is truthy and names an imported building yields a graph
edge from that building node into the floor node, and the floors mapping
records the same building_id, so graph and mapping agree on resolvable
references; rows resolved by fallback instead keep the original dangling or
unknown reference in the mapping while the graph attaches the fallback
parent, as the counterexample shows. -/
theorem C4_resolved_reference_agreement (pyH : Value → Int) (df : Table) (r : Row)
    (ht : "type" ∈ df.cols)
    (hr : r ∈ simpleRowsOfKind df "floor")
    (hN : ((simpleRowsOfKind df "floor").map (fun x => x.get "id")).Nodup)
    (htr : (r.getS "building_id").truthy = true)
    (hb : r.getS "building_id" ∈ buildingIds df) :
    ∃ frec, alookup (r.get "id") (processData pyH df).floors = some frec ∧
      frec.building_id = r.getS "building_id" ∧
      ("building_" ++ (r.getS "building_id").pyStr, "floor_" ++ (r.get "id").pyStr)
        ∈ (processData pyH df).graph.edges := by
  rw [processData_simple pyH df ht]
  refine ⟨floorRecOf pyH r, ?_, ?_, ?_⟩
  · rw [processSimpleFormat_floors]
    exact alookup_foldl_dinsert (fun x => x.get "id") (floorRecOf pyH) _ _ r hr hN
  · unfold floorRecOf
    simp [htr]
  · rw [processSimpleFormat_eq]
    obtain ⟨p, hpmem, hpid⟩ := List.mem_map.1 hb
    have hnode : ("building_" ++ (r.getS "building_id").pyStr) ∈
        ((simpleRowsOfKind df "building").foldl (processBuildingRow pyH)
          ((simpleRowsOfKind df "department").foldl processDeptRow (initStore df))).graph.nodes := by
      rw [← hpid]
      exact building_node_after_fold pyH _ _ p hpmem
    obtain ⟨l1, l2, hsplit⟩ := List.append_of_mem hr
    have hmain : ("building_" ++ (r.getS "building_id").pyStr,
        "floor_" ++ (r.get "id").pyStr) ∈
        ((simpleRowsOfKind df "floor").foldl (processFloorRow pyH)
          ((simpleRowsOfKind df "building").foldl (processBuildingRow pyH)
            ((simpleRowsOfKind df "department").foldl processDeptRow (initStore df)))).graph.edges := by
      rw [hsplit, List.foldl_append, List.foldl_cons]
      have hnode3 : ("building_" ++ (r.getS "building_id").pyStr) ∈
          (List.foldl (processFloorRow pyH)
            ((simpleRowsOfKind df "building").foldl (processBuildingRow pyH)
              ((simpleRowsOfKind df "department").foldl processDeptRow (initStore df)))
            l1).graph.nodes :=
        foldl_inv (processFloorRow pyH)
          (fun st => ("building_" ++ (r.getS "building_id").pyStr) ∈ st.graph.nodes) l1
          (fun s2 b _ h2 => processFloorRow_nodes pyH s2 b _ h2) _ hnode
      have hstep : ("building_" ++ (r.getS "building_id").pyStr,
          "floor_" ++ (r.get "id").pyStr) ∈
          (processFloorRow pyH
            (List.foldl (processFloorRow pyH)
              ((simpleRowsOfKind df "building").foldl (processBuildingRow pyH)
                ((simpleRowsOfKind df "department").foldl processDeptRow (initStore df)))
              l1) r).graph.edges := by
        unfold processFloorRow
        dsimp only
        rw [if_pos ⟨htr, mem_nodes_addNode _ _ _ hnode3⟩]
        exact mem_edges_addEdge_self _ _ _
      exact foldl_inv (processFloorRow pyH)
        (fun st => ("building_" ++ (r.getS "building_id").pyStr,
          "floor_" ++ (r.get "id").pyStr) ∈ st.graph.edges) l2
        (fun s2 b _ h2 => processFloorRow_edges pyH s2 b _ h2) _ hstep
    exact foldl_inv (processRoomRow pyH)
      (fun st => ("building_" ++ (r.getS "building_id").pyStr,
        "floor_" ++ (r.get "id").pyStr) ∈ st.graph.edges) _
      (fun s2 b _ h2 => processRoomRow_edges pyH s2 b _ h2) _ hmain

theorem C4_resolved_reference_agreement_witness :
    ("type" ∈ tabC4w.cols ∧
     (tabC4w.rows.get ⟨1, by decide⟩) ∈ simpleRowsOfKind tabC4w "floor" ∧
     ((simpleRowsOfKind tabC4w "floor").map (fun x => x.get "id")).Nodup ∧
     ((tabC4w.rows.get ⟨1, by decide⟩).getS "building_id").truthy = true ∧
     (tabC4w.rows.get ⟨1, by decide⟩).getS "building_id" ∈ buildingIds tabC4w) ∧
    (∃ frec, alookup ((tabC4w.rows.get ⟨1, by decide⟩).get "id")
        (processData hZero tabC4w).floors = some frec ∧
      frec.building_id = (tabC4w.rows.get ⟨1, by decide⟩).getS "building_id" ∧
      ("building_" ++ ((tabC4w.rows.get ⟨1, by decide⟩).getS "building_id").pyStr,
       "floor_" ++ ((tabC4w.rows.get ⟨1, by decide⟩).get "id").pyStr)
        ∈ (processData hZero tabC4w).graph.edges) :=
  ⟨by decide,
   C4_resolved_reference_agreement hZero tabC4w (tabC4w.rows.get ⟨1, by decide⟩)
     (by decide) (by decide) (by decide) (by decide) (by decide)⟩

theorem strAppend_data (p s : String) : (p ++ s).data = p.data ++ s.data := by
  cases p
  cases s
  rfl

theorem strAppend_head (p s : String) (c : Char) (h : p.data.head? = some c) :
    (p ++ s).data.head? = some c := by
  rw [strAppend_data]
  cases hp : p.data with
  | nil => rw [hp] at h; cases h
  | cons x t =>
    rw [hp] at h
    simp only [List.cons_append, List.head?_cons]
    simpa using h

theorem ne_of_head_char (a b : String) (c d : Char) (ha : a.data.head? = some c)
    (hb : b.data.head? = some d) (hcd : ¬ c = d) : ¬ a = b := by
  intro he
  rw [he, hb] at ha
  exact hcd (Option.some.inj ha).symm

theorem buildingNode_ne_root (s : String) : ¬ ("building_" ++ s = "root") :=
  ne_of_head_char _ _ 'b' 'r' (strAppend_head _ _ 'b' (by decide)) (by decide) (by decide)

theorem buildingNode_ne_dept (s t : String) : ¬ ("building_" ++ s = "dept_" ++ t) :=
  ne_of_head_char _ _ 'b' 'd' (strAppend_head _ _ 'b' (by decide))
    (strAppend_head _ _ 'd' (by decide)) (by decide)

theorem buildingNode_ne_floor (s t : String) : ¬ ("building_" ++ s = "floor_" ++ t) :=
  ne_of_head_char _ _ 'b' 'f' (strAppend_head _ _ 'b' (by decide))
    (strAppend_head _ _ 'f' (by decide)) (by decide)

theorem not_nodeOK_building (bs : List Value) (ref : String)
    (hall : ∀ b ∈ bs, ¬ ("building_" ++ ref = "building_" ++ Value.pyStr b))
    (n : String) (hOK : nodeOK bs n) : ¬ ("building_" ++ ref = n) := by
  rcases hOK with h | ⟨s, h⟩ | ⟨b, hb, h⟩ | ⟨s, h⟩
  · rw [h]; exact buildingNode_ne_root ref
  · rw [h]; exact buildingNode_ne_dept ref s
  · rw [h]; exact hall b hb
  · rw [h]; exact buildingNode_ne_floor ref s

theorem mem_map_fst_dinsert {α : Type} (m : List (Value × α)) (k k2 : Value) (v : α)
    (h : k2 ∈ (dinsert m k v).map Prod.fst) : k2 ∈ m.map Prod.fst ∨ k2 = k := by
  unfold dinsert at h
  split at h
  · rw [List.map_map] at h
    obtain ⟨q, hq, he⟩ := List.mem_map.1 h
    by_cases hq1 : q.1 = k
    · right
      simp only [Function.comp, if_pos hq1] at he
      exact he.symm
    · left
      simp only [Function.comp, if_neg hq1] at he
      exact List.mem_map.2 ⟨q, hq, he⟩
  · rw [List.map_append] at h
    rcases List.mem_append.1 h with h2 | h2
    · exact Or.inl h2
    · right
      simpa using h2

theorem stInv_initStore (bs : List Value) (df : Table) : stInv bs (initStore df) := by
  constructor
  · intro n hn
    have h2 : n = "root" := by simpa [initStore] using hn
    exact Or.inl h2
  · intro k hk
    simp [initStore] at hk

theorem stInv_processDeptRow (bs : List Value) (s : Store) (r : Row)
    (h : stInv bs s) : stInv bs (processDeptRow s r) := by
  obtain ⟨hn, hb⟩ := h
  constructor
  · intro n hmem
    unfold processDeptRow at hmem
    dsimp only at hmem
    rcases nodes_addEdge_sub _ _ _ _ hmem with h2 | h2 | h2
    · rcases nodes_addNode_sub _ _ _ h2 with h3 | h3
      · exact hn n h3
      · exact Or.inr (Or.inl ⟨_, h3⟩)
    · exact Or.inl h2
    · exact Or.inr (Or.inl ⟨_, h2⟩)
  · intro k hk
    exact hb k hk

theorem stInv_processBuildingRow (bs : List Value) (pyH : Value → Int) (s : Store)
    (r : Row) (hid : r.get "id" ∈ bs) (h : stInv bs s) :
    stInv bs (processBuildingRow pyH s r) := by
  obtain ⟨hn, hb⟩ := h
  constructor
  · intro n hmem
    unfold processBuildingRow at hmem
    dsimp only at hmem
    split at hmem
    · rcases nodes_addEdge_sub _ _ _ _ hmem with h2 | h2 | h2
      · rcases nodes_addNode_sub _ _ _ h2 with h3 | h3
        · exact hn n h3
        · exact Or.inr (Or.inr (Or.inl ⟨_, hid, h3⟩))
      · exact Or.inr (Or.inl ⟨_, h2⟩)
      · exact Or.inr (Or.inr (Or.inl ⟨_, hid, h2⟩))
    · rcases nodes_addEdge_sub _ _ _ _ hmem with h2 | h2 | h2
      · rcases nodes_addNode_sub _ _ _ h2 with h3 | h3
        · exact hn n h3
        · exact Or.inr (Or.inr (Or.inl ⟨_, hid, h3⟩))
      · exact Or.inl h2
      · exact Or.inr (Or.inr (Or.inl ⟨_, hid, h2⟩))
  · intro k hk
    have hk2 : k ∈ (dinsert s.buildings (r.get "id") (buildingRecOf pyH r)).map Prod.fst := hk
    rcases mem_map_fst_dinsert _ _ _ _ hk2 with h2 | h2
    · exact hb k h2
    · rw [h2]; exact hid

theorem stInv_processFloorRow (bs : List Value) (pyH : Value → Int) (s : Store)
    (r : Row) (h : stInv bs s) : stInv bs (processFloorRow pyH s r) := by
  obtain ⟨hn, hb⟩ := h
  constructor
  · intro n hmem
    unfold processFloorRow at hmem
    dsimp only at hmem
    split at hmem
    · next hcond =>
      rcases nodes_addEdge_sub _ _ _ _ hmem with h2 | h2 | h2
      · rcases nodes_addNode_sub _ _ _ h2 with h3 | h3
        · exact hn n h3
        · exact Or.inr (Or.inr (Or.inr ⟨_, h3⟩))
      · rcases nodes_addNode_sub _ _ _ hcond.2 with h3 | h3
        · rw [h2]; exact hn _ h3
        · rw [h2, h3]; exact Or.inr (Or.inr (Or.inr ⟨_, rfl⟩))
      · exact Or.inr (Or.inr (Or.inr ⟨_, h2⟩))
    · split at hmem
      · next hbuilds =>
        rcases nodes_addEdge_sub _ _ _ _ hmem with h2 | h2 | h2
        · rcases nodes_addNode_sub _ _ _ h2 with h3 | h3
          · exact hn n h3
          · exact Or.inr (Or.inr (Or.inr ⟨_, h3⟩))
        · exact Or.inl h2
        · exact Or.inr (Or.inr (Or.inr ⟨_, h2⟩))
      · next b0 t0 hbuilds =>
        rcases nodes_addEdge_sub _ _ _ _ hmem with h2 | h2 | h2
        · rcases nodes_addNode_sub _ _ _ h2 with h3 | h3
          · exact hn n h3
          · exact Or.inr (Or.inr (Or.inr ⟨_, h3⟩))
        · refine Or.inr (Or.inr (Or.inl ⟨b0.1, ?_, h2⟩))
          refine hb b0.1 ?_
          rw [hbuilds]
          simp
        · exact Or.inr (Or.inr (Or.inr ⟨_, h2⟩))
  · intro k hk
    exact hb k hk

theorem dinsert_cons_head {α : Type} (k0 : Value) (w : α) (t : List (Value × α))
    (k : Value) (v : α) :
    ∃ w2 t2, dinsert ((k0, w) :: t) k v = (k0, w2) :: t2 := by
  unfold dinsert
  split
  · by_cases hk : k0 = k
    · refine ⟨v, t.map (fun p => if p.1 = k then (k, v) else p), ?_⟩
      rw [List.map_cons, if_pos hk, hk]
    · refine ⟨w, t.map (fun p => if p.1 = k then (k, v) else p), ?_⟩
      rw [List.map_cons, if_neg hk]
  · exact ⟨w, t ++ [(k, v)], rfl⟩

theorem foldl_dinsert_cons {α β : Type} (key : β → Value) (rec : β → α) :
    ∀ (l : List β) (k0 : Value) (w : α) (m : List (Value × α)),
      ∃ w2 m2, l.foldl (fun m2 b => dinsert m2 (key b) (rec b)) ((k0, w) :: m) =
        (k0, w2) :: m2
  | [], k0, w, m => ⟨w, m, rfl⟩
  | b :: t, k0, w, m => by
    rw [List.foldl_cons]
    obtain ⟨w2, t2, he⟩ := dinsert_cons_head k0 w m (key b) (rec b)
    rw [he]
    exact foldl_dinsert_cons key rec t k0 w2 t2

theorem dinsert_nil {α : Type} (k : Value) (v : α) : dinsert [] k v = [(k, v)] := by
  unfold dinsert
  rw [if_neg (by simp)]
  rfl

/-- Claim C6: a simple format import that validates still succeeds when a
floor row holds an empty or dangling building reference, and the floor node
is attached in the graph to the first imported building when at least one
building exists, and directly to the root node when none does. -/
theorem C6_floor_fallback_attachment (pyH : Value → Int) (df : Table) (st0 : Store) (r : Row)
    (hv : (validateCsv df).1 = true)
    (ht : "type" ∈ df.cols)
    (hr : r ∈ simpleRowsOfKind df "floor")
    (hdang : (r.getS "building_id").truthy = false ∨
      ∀ b ∈ buildingIds df, ¬ ("building_" ++ (r.getS "building_id").pyStr =
        "building_" ++ Value.pyStr b)) :
    (importFromCsv pyH df st0).2 = Option.none ∧
    (importFromCsv pyH df st0).1 = processData pyH df ∧
    (fallbackSource df, "floor_" ++ (r.get "id").pyStr)
      ∈ (processData pyH df).graph.edges := by
  refine ⟨by simp [importFromCsv, hv], by simp [importFromCsv, hv], ?_⟩
  rw [processData_simple pyH df ht, processSimpleFormat_eq]
  obtain ⟨l1, l2, hsplit⟩ := List.append_of_mem hr
  rw [hsplit, List.foldl_append, List.foldl_cons]
  have hInv1 : stInv (buildingIds df)
      ((simpleRowsOfKind df "department").foldl processDeptRow (initStore df)) :=
    foldl_inv processDeptRow (stInv (buildingIds df)) _
      (fun s b _ h => stInv_processDeptRow _ s b h) _ (stInv_initStore _ df)
  have hInv2 : stInv (buildingIds df)
      ((simpleRowsOfKind df "building").foldl (processBuildingRow pyH)
        ((simpleRowsOfKind df "department").foldl processDeptRow (initStore df))) :=
    foldl_inv (processBuildingRow pyH) (stInv (buildingIds df)) _
      (fun s b hb h => stInv_processBuildingRow _ pyH s b (List.mem_map.2 ⟨b, hb, rfl⟩) h)
      _ hInv1
  have hInv3 : stInv (buildingIds df)
      (List.foldl (processFloorRow pyH)
        ((simpleRowsOfKind df "building").foldl (processBuildingRow pyH)
          ((simpleRowsOfKind df "department").foldl processDeptRow (initStore df))) l1) :=
    foldl_inv (processFloorRow pyH) (stInv (buildingIds df)) l1
      (fun s b _ h => stInv_processFloorRow _ pyH s b h) _ hInv2
  have hcond : ¬ ((r.getS "building_id").truthy = true ∧
      ("building_" ++ (r.getS "building_id").pyStr) ∈
        ((List.foldl (processFloorRow pyH)
          ((simpleRowsOfKind df "building").foldl (processBuildingRow pyH)
            ((simpleRowsOfKind df "department").foldl processDeptRow (initStore df)))
          l1).graph.addNode ("floor_" ++ (r.get "id").pyStr)).nodes) := by
    rintro ⟨htr, hmem⟩
    rcases hdang with hd | hd
    · rw [hd] at htr
      cases htr
    · rcases nodes_addNode_sub _ _ _ hmem with h2 | h2
      · exact not_nodeOK_building _ _ hd _ (hInv3.1 _ h2) rfl
      · exact buildingNode_ne_floor _ _ h2
  have hbmaps : ((simpleRowsOfKind df "building").foldl (processBuildingRow pyH)
      ((simpleRowsOfKind df "department").foldl processDeptRow (initStore df))).buildings =
      (simpleRowsOfKind df "building").foldl
        (fun m b => dinsert m (b.get "id") (buildingRecOf pyH b)) [] := by
    rw [foldl_map_eq (processBuildingRow pyH) Store.buildings
        (fun m b => dinsert m (b.get "id") (buildingRecOf pyH b))
        (processBuildingRow_buildings pyH),
      foldl_proj processDeptRow Store.buildings processDeptRow_buildings]
    rfl
  have hb3 : (List.foldl (processFloorRow pyH)
      ((simpleRowsOfKind df "building").foldl (processBuildingRow pyH)
        ((simpleRowsOfKind df "department").foldl processDeptRow (initStore df)))
      l1).buildings =
      (simpleRowsOfKind df "building").foldl
        (fun m b => dinsert m (b.get "id") (buildingRecOf pyH b)) [] := by
    rw [foldl_proj (processFloorRow pyH) Store.buildings (processFloorRow_buildings pyH),
      hbmaps]
  cases hbrows : simpleRowsOfKind df "building" with
  | nil =>
    have hfs : fallbackSource df = "root" := by
      unfold fallbackSource
      rw [hbrows]
    rw [hfs]
    have hbnil : (List.foldl (processFloorRow pyH)
        ((simpleRowsOfKind df "building").foldl (processBuildingRow pyH)
          ((simpleRowsOfKind df "department").foldl processDeptRow (initStore df)))
        l1).buildings = [] := by
      rw [hb3, hbrows]
      rfl
    have hstep : ("root", "floor_" ++ (r.get "id").pyStr) ∈
        (processFloorRow pyH
          (List.foldl (processFloorRow pyH)
            ((simpleRowsOfKind df "building").foldl (processBuildingRow pyH)
              ((simpleRowsOfKind df "department").foldl processDeptRow (initStore df)))
            l1) r).graph.edges := by
      unfold processFloorRow
      dsimp only
      split
      · next hc => exact absurd hc hcond
      · split
        · exact mem_edges_addEdge_self _ _ _
        · next b0 t0 heq =>
          have h12 : ([] : List (Value × BuildingRec)) = b0 :: t0 := hbnil.symm.trans heq
          cases h12
    rw [hbrows] at hstep
    refine foldl_inv (processRoomRow pyH)
      (fun st => ("root", "floor_" ++ (r.get "id").pyStr) ∈ st.graph.edges) _
      (fun s2 b _ h2 => processRoomRow_edges pyH s2 b _ h2) _ ?_
    exact foldl_inv (processFloorRow pyH)
      (fun st => ("root", "floor_" ++ (r.get "id").pyStr) ∈ st.graph.edges) l2
      (fun s2 b _ h2 => processFloorRow_edges pyH s2 b _ h2) _ hstep
  | cons b0 rest =>
    have hfs : fallbackSource df = "building_" ++ (b0.get "id").pyStr := by
      unfold fallbackSource
      rw [hbrows]
    rw [hfs]
    have hbne : ∃ w2 m2, (List.foldl (processFloorRow pyH)
        ((simpleRowsOfKind df "building").foldl (processBuildingRow pyH)
          ((simpleRowsOfKind df "department").foldl processDeptRow (initStore df)))
        l1).buildings = ((b0.get "id"), w2) :: m2 := by
      rw [hb3, hbrows, List.foldl_cons, dinsert_nil]
      exact foldl_dinsert_cons _ _ rest (b0.get "id") (buildingRecOf pyH b0) []
    obtain ⟨w2, m2, hbne⟩ := hbne
    have hstep : ("building_" ++ (b0.get "id").pyStr, "floor_" ++ (r.get "id").pyStr) ∈
        (processFloorRow pyH
          (List.foldl (processFloorRow pyH)
            ((simpleRowsOfKind df "building").foldl (processBuildingRow pyH)
              ((simpleRowsOfKind df "department").foldl processDeptRow (initStore df)))
            l1) r).graph.edges := by
      unfold processFloorRow
      dsimp only
      split
      · next hc => exact absurd hc hcond
      · split
        · next heq =>
          have h12 : ((b0.get "id"), w2) :: m2 = [] := hbne.symm.trans heq
          cases h12
        · next p t0 heq =>
          have h12 : ((b0.get "id"), w2) :: m2 = p :: t0 := hbne.symm.trans heq
          injection h12 with h1 h2
          rw [← h1]
          exact mem_edges_addEdge_self _ _ _
    rw [hbrows] at hstep
    refine foldl_inv (processRoomRow pyH)
      (fun st => ("building_" ++ (b0.get "id").pyStr, "floor_" ++ (r.get "id").pyStr)
        ∈ st.graph.edges) _
      (fun s2 b _ h2 => processRoomRow_edges pyH s2 b _ h2) _ ?_
    exact foldl_inv (processFloorRow pyH)
      (fun st => ("building_" ++ (b0.get "id").pyStr, "floor_" ++ (r.get "id").pyStr)
        ∈ st.graph.edges) l2
      (fun s2 b _ h2 => processFloorRow_edges pyH s2 b _ h2) _ hstep

theorem C6_floor_fallback_attachment_witness :
    (((validateCsv tabC6a).1 = true ∧ "type" ∈ tabC6a.cols ∧
      (tabC6a.rows.get ⟨1, by decide⟩) ∈ simpleRowsOfKind tabC6a "floor" ∧
      (∀ b ∈ buildingIds tabC6a,
        ¬ ("building_" ++ (((tabC6a.rows.get ⟨1, by decide⟩).getS "building_id")).pyStr =
          "building_" ++ Value.pyStr b)) ∧
      fallbackSource tabC6a = "building_B1") ∧
     ((validateCsv tabC6b).1 = true ∧ "type" ∈ tabC6b.cols ∧
      (tabC6b.rows.get ⟨0, by decide⟩) ∈ simpleRowsOfKind tabC6b "floor" ∧
      ((tabC6b.rows.get ⟨0, by decide⟩).getS "building_id").truthy = false ∧
      fallbackSource tabC6b = "root")) ∧
    ((fallbackSource tabC6a, "floor_" ++ ((tabC6a.rows.get ⟨1, by decide⟩).get "id").pyStr)
       ∈ (processData hZero tabC6a).graph.edges ∧
     (fallbackSource tabC6b, "floor_" ++ ((tabC6b.rows.get ⟨0, by decide⟩).get "id").pyStr)
       ∈ (processData hZero tabC6b).graph.edges) :=
  ⟨⟨by decide, by decide⟩,
   (C6_floor_fallback_attachment hZero tabC6a emptyStore (tabC6a.rows.get ⟨1, by decide⟩)
     (by decide) (by decide) (by decide) (Or.inr (by decide))).2.2,
   (C6_floor_fallback_attachment hZero tabC6b emptyStore (tabC6b.rows.get ⟨0, by decide⟩)
     (by decide) (by decide) (by decide) (Or.inl (by decide))).2.2⟩

theorem str_eq_empty_of_data (q : String) (h : q.data = []) : q = "" := by
  cases q with
  | mk d =>
    cases h
    rfl

theorem pyLower_data_ne_nil (q : String) (hq : ¬ q = "") : ¬ (pyLower q).data = [] := by
  intro h
  apply hq
  have h2 : q.data.map Char.toLower = [] := h
  rw [List.map_eq_nil] at h2
  exact str_eq_empty_of_data q h2

theorem matchesQuery_eq_specMatch (q : String) (hq : ¬ q = "") (v : Value)
    (hv : isStrField v = true) :
    matchesQuery (pyLower q) v = containsCI (fieldText v) q := by
  cases v with
  | na => cases hv
  | num n => cases hv
  | str s =>
    by_cases hs : s = ""
    · subst hs
      unfold matchesQuery containsCI containsSub fieldText Value.truthy Value.pyStr
      simp only [ne_eq, not_true_eq_false, decide_False, Bool.false_and]
      have hd : ¬ ((pyLower q).data <:+: (pyLower "").data) := by
        intro hinf
        rw [show (pyLower "").data = [] from rfl] at hinf
        rw [List.infix_nil] at hinf
        exact pyLower_data_ne_nil q hq hinf
      simp [hd]
    · unfold matchesQuery containsCI containsSub fieldText Value.truthy Value.pyStr
      simp [hs]

/-- Claim C8 counterexample: a room imported from a simple row whose
description cell is empty carries a missing description, which Python
renders as the truthy float NaN; searching for a substring of nan returns
that room although none of its listed fields textually contains the query,
so search does not return exactly the textual matches. -/
theorem C8_missing_field_matches_nan_query :
    (searchStore (processData hZero tabC8ce) "an").rooms.length = 1 ∧
    ∀ r2 ∈ (searchStore (processData hZero tabC8ce) "an").rooms,
      containsCI (fieldText r2.name) "an" = false ∧
      containsCI (fieldText r2.rtype) "an" = false ∧
      containsCI (fieldText r2.description) "an" = false ∧
      containsCI (fieldText r2.facilities) "an" = false := by
  decide

/-- Claim C8, amended: for every store whose searched fields hold strings
and every non empty query, search returns exactly the departments, buildings
and floors whose name or description contains the query as a case
insensitive substring and exactly the rooms whose name, type, description or
facilities does, with no cross kind field leakage and no two character
minimum imposed by the engine; a missing field is the truthy NaN and is
matched against its rendering nan instead, as the counterexample shows. -/
theorem C8_search_exact_on_string_fields (st : Store) (q : String)
    (htex : stringFieldStore st = true) (hq : ¬ q = "") :
    searchStore st q =
      { departments := (st.departments.map Prod.snd).filter
          (fun d => containsCI (fieldText d.name) q || containsCI (fieldText d.description) q),
        buildings := (st.buildings.map Prod.snd).filter
          (fun b => containsCI (fieldText b.name) q || containsCI (fieldText b.description) q),
        floors := (st.floors.map Prod.snd).filter
          (fun f => containsCI (fieldText f.name) q || containsCI (fieldText f.description) q),
        rooms := (st.rooms.map Prod.snd).filter
          (fun r => containsCI (fieldText r.name) q || containsCI (fieldText r.rtype) q ||
            containsCI (fieldText r.description) q || containsCI (fieldText r.facilities) q) } := by
  unfold searchStore
  rw [if_neg hq]
  dsimp only
  unfold stringFieldStore at htex
  simp only [Bool.and_eq_true, List.all_eq_true] at htex
  obtain ⟨⟨⟨hdep, hbld⟩, hflr⟩, hrm⟩ := htex
  congr 1
  · refine List.filter_congr ?_
    intro d hd
    obtain ⟨p, hp, hpd⟩ := List.mem_map.1 hd
    obtain ⟨h1, h2⟩ := hdep p hp
    rw [← hpd]
    rw [matchesQuery_eq_specMatch q hq _ h1, matchesQuery_eq_specMatch q hq _ h2]
  · refine List.filter_congr ?_
    intro b hb
    obtain ⟨p, hp, hpd⟩ := List.mem_map.1 hb
    obtain ⟨h1, h2⟩ := hbld p hp
    rw [← hpd]
    rw [matchesQuery_eq_specMatch q hq _ h1, matchesQuery_eq_specMatch q hq _ h2]
  · refine List.filter_congr ?_
    intro f hf
    obtain ⟨p, hp, hpd⟩ := List.mem_map.1 hf
    obtain ⟨h1, h2⟩ := hflr p hp
    rw [← hpd]
    rw [matchesQuery_eq_specMatch q hq _ h1, matchesQuery_eq_specMatch q hq _ h2]
  · refine List.filter_congr ?_
    intro r2 hr2
    obtain ⟨p, hp, hpd⟩ := List.mem_map.1 hr2
    obtain ⟨⟨⟨h1, h2⟩, h3⟩, h4⟩ := hrm p hp
    rw [← hpd]
    rw [matchesQuery_eq_specMatch q hq _ h1, matchesQuery_eq_specMatch q hq _ h2,
      matchesQuery_eq_specMatch q hq _ h3, matchesQuery_eq_specMatch q hq _ h4]

theorem C8_search_exact_on_string_fields_witness :
    (stringFieldStore (processData hZero tabC8w) = true ∧ ¬ ("Lab" : String) = "") ∧
    searchStore (processData hZero tabC8w) "Lab" =
      { departments := ((processData hZero tabC8w).departments.map Prod.snd).filter
          (fun d => containsCI (fieldText d.name) "Lab" ||
            containsCI (fieldText d.description) "Lab"),
        buildings := ((processData hZero tabC8w).buildings.map Prod.snd).filter
          (fun b => containsCI (fieldText b.name) "Lab" ||
            containsCI (fieldText b.description) "Lab"),
        floors := ((processData hZero tabC8w).floors.map Prod.snd).filter
          (fun f => containsCI (fieldText f.name) "Lab" ||
            containsCI (fieldText f.description) "Lab"),
        rooms := ((processData hZero tabC8w).rooms.map Prod.snd).filter
          (fun r => containsCI (fieldText r.name) "Lab" || containsCI (fieldText r.rtype) "Lab" ||
            containsCI (fieldText r.description) "Lab" ||
            containsCI (fieldText r.facilities) "Lab") } :=
  ⟨⟨by decide, by decide⟩,
   C8_search_exact_on_string_fields (processData hZero tabC8w) "Lab" (by decide) (by decide)⟩
